import Mathlib

/-!
Verification development for the billing ledger synchronization engine
(repository advan-workflow).  The definitions below are a shallow embedding
of the Python source files src/src/sheets_client.py, src/src/database.py and
src/backend-api/routes/billing.py; the theorems settle the frozen claims
about the natural-language specification of that code.

Conventions of the embedding:
* Python strings are Lean String, manipulated through their char lists;
  machine-independent (Python str is a sequence of code points, as is
  String.data).
* Python sqlite3 state is an explicit record of row lists (LedgerDB);
  each INSERT/UPDATE/DELETE is one fallible write operation, failure being
  injected by an environment oracle (sqlite errors are environmental).
  The `with self._get_connection()` context manager of database.py commits
  on success and rolls back on an exception; it is embedded as
  `with_connection`.
* The Google Sheets worksheet is a grid of cells (Sheet); a spreadsheet is
  an association list of year-named worksheets (SheetBook).
* Fallible Python code is embedded in Except.
-/

set_option maxRecDepth 8000

namespace Advan

/-! ## Basic string helpers (code-point based, as Python str) -/

/-- Character-list prefix test. -/
def isPrefixCh : List Char → List Char → Bool
  | [], _ => true
  | _ :: _, [] => false
  | a :: as, b :: bs => a = b && isPrefixCh as bs

/-- Python `needle in hay` for strings: contiguous substring test. -/
def isSubstrOf (needle hay : List Char) : Bool :=
  match needle, hay with
  | [], _ => true
  | _ :: _, [] => false
  | _, _ :: t => isPrefixCh needle hay || isSubstrOf needle t

/-- Python `sub in s` on strings. -/
def strContains (hay sub : String) : Bool := isSubstrOf sub.data hay.data

/-- Whitespace as recognised by the embedding (ASCII whitespace; the
ideographic space U+3000 is folded to ' ' by the NFKC table below, so it is
covered where the source has applied NFKC first). -/
def isWsChar (c : Char) : Bool := c.isWhitespace

/-- Python `str.strip()` (restricted to the whitespace set above). -/
def strTrim (s : String) : String :=
  String.mk (((s.data.dropWhile isWsChar).reverse.dropWhile isWsChar).reverse)

/-- Python `"".join(s.split())`: remove every whitespace character. -/
def stripAllWs (s : String) : String :=
  String.mk (s.data.filter (fun c => !isWsChar c))

/-- Remove every occurrence of the given characters (the chain of
single-character `str.replace(c, "")` calls in parse_amount). -/
def strRemoveChars (s : String) (cs : List Char) : String :=
  String.mk (s.data.filter (fun c => !cs.contains c))

/-- Value of a nonempty all-digit character list, `none` otherwise. -/
def digitsToNat? (l : List Char) : Option Nat :=
  if l ≠ [] ∧ l.all (fun c => c.isDigit) then
    some (l.foldl (fun acc c => acc * 10 + (c.toNat - '0'.toNat)) 0)
  else none

/-- Python `int(str)`: optional surrounding whitespace, optional sign,
decimal digits (digit-group underscores are not modelled). -/
def parseIntPy (s : String) : Option Int :=
  match (s.data.dropWhile isWsChar).reverse.dropWhile isWsChar |>.reverse with
  | '-' :: ds => (digitsToNat? ds).map (fun n => -(n : Int))
  | '+' :: ds => (digitsToNat? ds).map (fun n => (n : Int))
  | ds => (digitsToNat? ds).map (fun n => (n : Int))

/-- `re.match(r'(\d{4})', s)`: the first four characters as a number when
they are all digits. -/
def digits4? (s : String) : Option Int :=
  match s.data with
  | a :: b :: c :: d :: _ =>
    if a.isDigit ∧ b.isDigit ∧ c.isDigit ∧ d.isDigit then
      some (((((a.toNat - '0'.toNat) * 10 + (b.toNat - '0'.toNat)) * 10
        + (c.toNat - '0'.toNat)) * 10 + (d.toNat - '0'.toNat) : Nat) : Int)
    else none
  | _ => none

/-- Python `s.split(sep)[0]`. -/
def splitHead (s : String) (sep : Char) : String :=
  String.mk (s.data.takeWhile (fun c => c ≠ sep))

/-- Python `s.split(sep)[1]` when a separator occurs (the second field). -/
def splitSecond? (s : String) (sep : Char) : Option String :=
  match s.data.dropWhile (fun c => c ≠ sep) with
  | [] => none
  | _ :: rest => some (String.mk (rest.takeWhile (fun c => c ≠ sep)))

/-! ## Identity Normalizer — sheets_client.normalize_company_name -/

/-- Single-character NFKC compatibility mapping, covering the character
ranges the normalization pipeline of the source can be affected by: the
ideographic space, the parenthesized ideographs ㈱/㈲ (whose NFKC
decompositions are "(株)" and "(有)") and the full-width ASCII block.
`unicodedata.normalize('NFKC', ·)` over the remaining code points (for
example half-width katakana) is outside the embedding; every character not
in the table is kept unchanged. -/
def nfkcChar (c : Char) : List Char :=
  if c = '　' then [' ']
  else if c = '㈱' then ['(', '株', ')']
  else if c = '㈲' then ['(', '有', ')']
  else if 0xFF01 ≤ c.toNat ∧ c.toNat ≤ 0xFF5E then [Char.ofNat (c.toNat - 0xFEE0)]
  else [c]

/-- NFKC normalization of a string (character-wise table above). -/
def nfkc (s : String) : String := String.mk ((s.data.map nfkcChar).flatten)

/-- `re.sub(token1|token2|..., '', s)` for alternations of literal tokens:
scan left to right, at each position try the alternatives in order and
remove the first that matches, else keep the character.  Fuel-indexed so
that the definition is structural (the fuel is the list length, which is
always sufficient since every step consumes at least one character).  The
`!t.isEmpty` guard is vacuous for the token lists used (all alternatives in
the source regexes are nonempty literals). -/
def removeTokensF (tokens : List (List Char)) : Nat → List Char → List Char
  | 0, _ => []
  | _ + 1, [] => []
  | fuel + 1, c :: rest =>
    match tokens.find? (fun t => !t.isEmpty && isPrefixCh t (c :: rest)) with
    | some t => removeTokensF tokens fuel (rest.drop (t.length - 1))
    | none => c :: removeTokensF tokens fuel rest

def removeTokens (tokens : List (List Char)) (l : List Char) : List Char :=
  removeTokensF tokens l.length l

/-- The legal-entity alternatives of
`re.sub(r'株式会社|有限会社|\(株\)|（株）|\(有\)|（有）|㈱|㈲', '', name)`,
in the order of the source pattern. -/
def corporateTokens : List (List Char) :=
  ["株式会社".data, "有限会社".data, "(株)".data, "（株）".data,
   "(有)".data, "（有）".data, "㈱".data, "㈲".data]

/-- The honorific alternatives of `re.sub(r'御中|様|殿', '', name)`. -/
def honorificTokens : List (List Char) :=
  ["御中".data, "様".data, "殿".data]

/-- Index of the first closing bracket of `[）)】]` reachable without
crossing a newline (Python `.` does not match a newline, so a non-greedy
`[（(【].*?[）)】]` match needs such a closer). -/
def findCloser : List Char → Option Nat
  | [] => none
  | c :: rest =>
    if c = '）' ∨ c = ')' ∨ c = '】' then some 0
    else if c = '\n' then none
    else (findCloser rest).map (fun n => n + 1)

/-- `re.sub(r'[（(【].*?[）)】]', '', s)`: remove every non-greedy
parenthesized group.  Fuel-indexed for structural recursion as above. -/
def removeParensF : Nat → List Char → List Char
  | 0, _ => []
  | _ + 1, [] => []
  | fuel + 1, c :: rest =>
    if c = '（' ∨ c = '(' ∨ c = '【' then
      match findCloser rest with
      | some j => removeParensF fuel (rest.drop (j + 1))
      | none => c :: removeParensF fuel rest
    else c :: removeParensF fuel rest

def removeParens (l : List Char) : List Char := removeParensF l.length l

/-- sheets_client.normalize_company_name: NFKC fold, strip legal-entity
tokens, strip honorifics, strip parenthesized reading annotations, remove
whitespace, final strip. -/
def normalize_company_name (name : String) : String :=
  if name = "" then ""
  else
    strTrim (String.mk
      (((removeParens
          (removeTokens honorificTokens
            (removeTokens corporateTokens (nfkc name).data))).filter
        (fun c => !isWsChar c))))

/-! ## Identity Matcher — sheets_client.match_company_name -/

/-- `abs(a - b)` on lengths. -/
def absDiff (a b : Nat) : Nat := if a ≤ b then b - a else a - b

/-- The length difference the fallback pass of the matcher minimizes. -/
def fdiff (ns c : String) : Nat :=
  absDiff ns.length (normalize_company_name c).length

/-- Exact pass of match_company_name: first candidate whose normalized form
equals the normalized search; the candidate is returned `str.strip()`-ped,
as in the source. -/
def exactGo (ns : String) : List String → Option String
  | [] => none
  | c :: rest =>
    if c == "" then exactGo ns rest
    else if !(normalize_company_name c == "") && ns == normalize_company_name c then
      some (strTrim c)
    else exactGo ns rest

/-- Fallback pass of match_company_name.  The running pair models the
`best_match` / `best_diff` variables of the source (`none` standing for the
initial `best_diff = float('inf')`). -/
def fallbackGo (ns : String) : List String → Option (String × Nat) → Option String
  | [], best => best.map Prod.fst
  | c :: rest, best =>
    if c == "" then fallbackGo ns rest best
    else if normalize_company_name c == "" then fallbackGo ns rest best
    else if isSubstrOf ns.data (normalize_company_name c).data
        || isSubstrOf (normalize_company_name c).data ns.data then
      match best with
      | none =>
        fallbackGo ns rest
          (some (strTrim c, absDiff ns.length (normalize_company_name c).length))
      | some (b, bd) =>
        if absDiff ns.length (normalize_company_name c).length < bd then
          fallbackGo ns rest
            (some (strTrim c, absDiff ns.length (normalize_company_name c).length))
        else fallbackGo ns rest (some (b, bd))
    else fallbackGo ns rest best

/-- sheets_client.match_company_name: exact normalized match first, then
closest-length substring fallback. -/
def match_company_name (search_name : String) (candidates : List String) :
    Option String :=
  if normalize_company_name search_name == "" then none
  else
    match exactGo (normalize_company_name search_name) candidates with
    | some r => some r
    | none => fallbackGo (normalize_company_name search_name) candidates none

/-- Eligibility of a candidate for the fallback pass, as the conjunction of
the loop's guards (truthy candidate, nonempty normalized form, substring
compatibility in either direction). -/
def fallbackElig (ns c : String) : Bool :=
  !(c == "") && (!(normalize_company_name c == "")
    && (isSubstrOf ns.data (normalize_company_name c).data
        || isSubstrOf (normalize_company_name c).data ns.data))

/-- sheets_client._find_company_row: best-matching row (1-indexed) of a
company inside column A, data starting at start_row. -/
def find_company_row (company_name : String) (col_a_values : List String)
    (start_row : Nat) : Option Nat :=
  match match_company_name company_name (col_a_values.drop (start_row - 1)) with
  | none => none
  | some matched =>
    ((col_a_values.drop (start_row - 1)).findIdx?
        (fun cell => strTrim cell == matched)).map (fun i => i + start_row)

/-! ## Cell values and parse_amount — sheets_client.parse_amount

Python float semantics in parse_amount: the value funneled through
`int(float(cleaned))` is modelled as an exact decimal (PyFloat.finite num
scale = num / 10^scale) or as an infinity/NaN.  Rounding of the decimal to
the nearest IEEE double is not modelled (exact for the integral cell values
the function is used on); conversion overflow to an infinity is modelled
with the exact integer DBL_MAX = 2^1024 - 2^971 as the threshold.  Python's
digit-group underscores are not modelled. -/

inductive PyFloat
  | finite (num : Int) (scale : Nat)
  | inf
  | neginf
  | nan
deriving DecidableEq, Repr

inductive PyErr
  | valueError
  | overflowError
deriving DecidableEq, Repr

/-- A Python value a spreadsheet cell read can produce. -/
inductive PyVal
  | none
  | int (n : Int)
  | float (f : PyFloat)
  | str (s : String)
deriving DecidableEq, Repr

/-- Exact integer DBL_MAX. -/
def dblMaxNat : Nat := 2 ^ 1024 - 2 ^ 971

/-- Python `int(f)` on a float: truncation toward zero for a finite value,
OverflowError on an infinity, ValueError on NaN. -/
def intOfPyFloat : PyFloat → Except PyErr Int
  | .finite num scale => .ok (Int.tdiv num ((10 : Int) ^ scale))
  | .inf => .error .overflowError
  | .neginf => .error .overflowError
  | .nan => .error .valueError

/-- The decimal part of Python `float(str)`: digits with optional point and
optional exponent; produces the exact decimal value, overflowing to an
infinity beyond DBL_MAX. -/
def parseDecimal (l : List Char) (neg : Bool) : Option PyFloat :=
  let mant := l.takeWhile (fun c => c ≠ 'e')
  let expPart : Option (List Char) :=
    match l.dropWhile (fun c => c ≠ 'e') with
    | [] => none
    | _ :: rest => some rest
  let ip := mant.takeWhile (fun c => c ≠ '.')
  let fpPart : Option (List Char) :=
    match mant.dropWhile (fun c => c ≠ '.') with
    | [] => none
    | _ :: rest => some rest
  let fp := fpPart.getD []
  if (ip ++ fp) = [] then none
  else if !(ip ++ fp).all (fun c => c.isDigit) then none
  else
    let digits : Nat :=
      (ip ++ fp).foldl (fun acc c => acc * 10 + (c.toNat - '0'.toNat)) 0
    let expVal : Option Int :=
      match expPart with
      | none => some 0
      | some ('-' :: ds) => (digitsToNat? ds).map (fun n => -(n : Int))
      | some ('+' :: ds) => (digitsToNat? ds).map (fun n => (n : Int))
      | some ds => (digitsToNat? ds).map (fun n => (n : Int))
    match expVal with
    | none => none
    | some e =>
      let e2 : Int := e - (fp.length : Int)
      let num : Int :=
        if 0 ≤ e2 then (if neg then -(digits : Int) else (digits : Int)) * (10 : Int) ^ e2.toNat
        else (if neg then -(digits : Int) else (digits : Int))
      let scale : Nat := if 0 ≤ e2 then 0 else (-e2).toNat
      if num.natAbs > dblMaxNat * 10 ^ scale then
        some (if neg then .neginf else .inf)
      else some (.finite num scale)

/-- Python `float(str)`: surrounding whitespace stripped, optional sign,
then "inf"/"infinity"/"nan" (case-insensitive) or a decimal literal. -/
def pyFloatOfString (s : String) : Option PyFloat :=
  let t := ((s.data.dropWhile isWsChar).reverse.dropWhile isWsChar).reverse
  let (neg, body) :=
    match t with
    | '-' :: rest => (true, rest)
    | '+' :: rest => (false, rest)
    | _ => (false, t)
  let low := body.map (fun c => c.toLower)
  if low = "inf".data ∨ low = "infinity".data then
    some (if neg then .neginf else .inf)
  else if low = "nan".data then some .nan
  else parseDecimal low neg

/-- The accounting-negation and cleaning steps of parse_amount's string
branch: strip a full parenthesization, then a ▲/△ prefix (each setting the
negation flag), then remove commas, spaces and currency decorations.
Returns (cleaned, negative). -/
def parseAmountCleaned (s : String) : String × Bool :=
  let p1 :=
    if isPrefixCh ['('] s.data && isPrefixCh [')'] s.data.reverse then
      (String.mk (s.data.drop 1 |>.dropLast), true)
    else (s, false)
  let p2 :=
    if isPrefixCh ['▲'] p1.1.data || isPrefixCh ['△'] p1.1.data then
      (String.mk (p1.1.data.drop 1), true)
    else (p1.1, p1.2)
  (strRemoveChars p2.1 [',', '，', ' ', '¥', '￥', '円'], p2.2)

/-- sheets_client.parse_amount: cell value to integer.  The only escaping
exceptions are OverflowError from `int(float(cleaned))` on a string whose
numeric part denotes an infinity, ValueError from `int(value)` on a NaN
float and OverflowError on an infinite float; every other path returns an
integer (`except ValueError: return 0` catches both a failed `float()`
parse and `int(nan)`). -/
def parse_amount : PyVal → Except PyErr Int
  | .none => .ok 0
  | .int n => .ok n
  | .float f => intOfPyFloat f
  | .str s =>
    if s = "" then .ok 0
    else
      match pyFloatOfString (parseAmountCleaned s).1 with
      | none => .ok 0
      | some f =>
        match intOfPyFloat f with
        | .ok n => .ok (if (parseAmountCleaned s).2 then -n else n)
        | .error .valueError => .ok 0
        | .error .overflowError => .error .overflowError

/-- Syntactic characterization of the values on which parse_amount raises
an escaping exception: an infinite or NaN float input, or a nonempty
string whose cleaned numeric part parses to an infinity. -/
def parse_amount_raises : PyVal → Bool
  | .none => false
  | .int _ => false
  | .float .inf => true
  | .float .neginf => true
  | .float .nan => true
  | .float (.finite _ _) => false
  | .str s =>
    if s = "" then false
    else
      match pyFloatOfString (parseAmountCleaned s).1 with
      | some .inf => true
      | some .neginf => true
      | _ => false

/-! ## Delivery note data — pdf_extractor.DeliveryItem / DeliveryNote -/

structure DeliveryItem where
  slip_number : String
  product_code : String
  product_name : String
  quantity : Int
  unit_price : Int
  amount : Int
  date : String := ""
deriving DecidableEq, Repr

structure DeliveryNote where
  date : String
  company_name : String
  slip_number : String
  items : List DeliveryItem := []
  subtotal : Int := 0
  tax : Int := 0
  total : Int := 0
  payment_received : Int := 0
deriving DecidableEq, Repr

/-! ## Ledger Store — database.MonthlyItemsDB

The SQLite tables monthly_invoices / delivery_notes / delivery_items /
save_requests are row lists; AUTOINCREMENT ids are the next_*_id counters.
Timestamps (`datetime.now().strftime(...)`) are an explicit `time`
parameter.  The UNIQUE constraints of the schema are not re-enforced by the
model (the claims' theorems take them as hypotheses where needed). -/

structure InvoiceRow where
  id : Nat
  year_month : String
  company_name : String
  created_at : String
  updated_at : String
deriving DecidableEq, Repr

structure NoteRow where
  id : Nat
  monthly_invoice_id : Nat
  slip_number : String
  date : String
  sales_person : String
  subtotal : Int
  tax : Int
  total : Int
  created_at : String
  updated_at : String
deriving DecidableEq, Repr

structure ItemRow where
  delivery_note_id : Nat
  product_code : String
  product_name : String
  quantity : Int
  unit_price : Int
  amount : Int
deriving DecidableEq, Repr

structure LedgerDB where
  invoices : List InvoiceRow := []
  notes : List NoteRow := []
  items : List ItemRow := []
  save_requests : List String := []
  next_invoice_id : Nat := 1
  next_note_id : Nat := 1
deriving DecidableEq, Repr

inductive DbErr
  | storage
deriving DecidableEq, Repr

/-- Environment oracle: whether the k-th write statement of a transaction
raises a storage error (sqlite errors are environmental; reads are not
failure points of interest). -/
def DbEnv : Type := Nat → Bool

/-- One fallible write: consult the oracle, then apply the row change. -/
def tryWrite (env : DbEnv) (k : Nat) (db : LedgerDB) :
    Except DbErr (LedgerDB × Nat) :=
  if env k then .error .storage else .ok (db, k + 1)

/-- database.MonthlyItemsDB._get_connection: run the body, commit its state
on success, roll the state back to the entry state on an exception. -/
def with_connection {α : Type}
    (body : LedgerDB → Except DbErr (α × LedgerDB)) (db : LedgerDB) :
    Except DbErr α × LedgerDB :=
  match body db with
  | .ok (a, db1) => (.ok a, db1)
  | .error e => (.error e, db)

/-- database.MonthlyItemsDB._find_invoice_id: exact (year_month,
company_name) lookup first, then the Identity Matcher over the period's
company names. -/
def find_invoice_id (db : LedgerDB) (year_month company_name : String) :
    Option (Nat × String) :=
  match db.invoices.find?
      (fun r => r.year_month == year_month && r.company_name == company_name) with
  | some r => some (r.id, r.company_name)
  | none =>
    let rows := db.invoices.filter (fun r => r.year_month == year_month)
    if rows.isEmpty then none
    else
      match match_company_name company_name (rows.map (fun r => r.company_name)) with
      | none => none
      | some matched =>
        match rows.find? (fun r => r.company_name == matched) with
        | some r => some (r.id, r.company_name)
        | none => none

/-- database.MonthlyItemsDB.check_request_id (standalone read). -/
def check_request_id (db : LedgerDB) (request_id : String) : Bool :=
  if request_id = "" then false else db.save_requests.contains request_id

/-- INSERT OR IGNORE INTO save_requests (the created_at column carries no
behavior and is not modelled). -/
def recordRequestRow (db : LedgerDB) (request_id _time : String) : LedgerDB :=
  if db.save_requests.contains request_id then db
  else { db with save_requests := db.save_requests ++ [request_id] }

/-- The delivery_items INSERT loop of save_monthly_items_batch. -/
def insertItemsLoop (env : DbEnv) (note_id : Nat) :
    List DeliveryItem → LedgerDB → Nat → Except DbErr (LedgerDB × Nat)
  | [], db, k => .ok (db, k)
  | it :: rest, db, k =>
    match tryWrite env k
      { db with items := db.items ++
          [{ delivery_note_id := note_id
             product_code := it.product_code
             product_name := it.product_name
             quantity := it.quantity
             unit_price := it.unit_price
             amount := it.amount }] } with
    | .error e => .error e
    | .ok (db1, k1) => insertItemsLoop env note_id rest db1 k1

/-- The delivery_notes UPDATE row change of the upsert branch. -/
def updateNoteRows (db : LedgerDB) (note_id : Nat) (dn : DeliveryNote)
    (sp time : String) : LedgerDB :=
  { db with notes := db.notes.map (fun n =>
      if n.id == note_id then
        { n with
          date := dn.date
          sales_person := sp
          subtotal := dn.subtotal
          tax := dn.tax
          total := dn.total
          updated_at := time }
      else n) }

/-- The DELETE FROM delivery_items row change of the upsert branch. -/
def deleteItemRows (db : LedgerDB) (note_id : Nat) : LedgerDB :=
  { db with items := db.items.filter (fun it =>
      !(it.delivery_note_id == note_id)) }

/-- The delivery_notes INSERT row change. -/
def insertNoteRow (db : LedgerDB) (invoice_id : Nat) (dn : DeliveryNote)
    (sp time : String) : LedgerDB :=
  { db with
    notes := db.notes ++
      [{ id := db.next_note_id
         monthly_invoice_id := invoice_id
         slip_number := dn.slip_number
         date := dn.date
         sales_person := sp
         subtotal := dn.subtotal
         tax := dn.tax
         total := dn.total
         created_at := time
         updated_at := time }]
    next_note_id := db.next_note_id + 1 }

/-- The cumulative delivery_items INSERT row change of one note. -/
def insertItemRows (db : LedgerDB) (note_id : Nat)
    (items : List DeliveryItem) : LedgerDB :=
  { db with items := db.items ++ items.map (fun it =>
      { delivery_note_id := note_id
        product_code := it.product_code
        product_name := it.product_name
        quantity := it.quantity
        unit_price := it.unit_price
        amount := it.amount }) }

/-- The per-note upsert loop of save_monthly_items_batch: find the note by
(monthly_invoice_id, slip_number); update scalars and delete its items, or
insert a fresh note; then insert the note's items. -/
def saveNotesLoop (env : DbEnv) (invoice_id : Nat) (sp time : String) :
    List DeliveryNote → LedgerDB → Nat → Nat → Except DbErr (Nat × LedgerDB × Nat)
  | [], db, k, count => .ok (count, db, k)
  | dn :: rest, db, k, count =>
    match db.notes.find?
        (fun n => n.monthly_invoice_id == invoice_id && n.slip_number == dn.slip_number) with
    | some existing =>
      match tryWrite env k (updateNoteRows db existing.id dn sp time) with
      | .error e => .error e
      | .ok (db1, k1) =>
        match tryWrite env k1 (deleteItemRows db1 existing.id) with
        | .error e => .error e
        | .ok (db2, k2) =>
          match insertItemsLoop env existing.id dn.items db2 k2 with
          | .error e => .error e
          | .ok (db3, k3) =>
            saveNotesLoop env invoice_id sp time rest db3 k3 (count + 1)
    | none =>
      match tryWrite env k (insertNoteRow db invoice_id dn sp time) with
      | .error e => .error e
      | .ok (db1, k1) =>
        match insertItemsLoop env db.next_note_id dn.items db1 k1 with
        | .error e => .error e
        | .ok (db2, k2) =>
          saveNotesLoop env invoice_id sp time rest db2 k2 (count + 1)

/-- The monthly_invoices row change of the find-or-create step: rename (and
touch) the matched invoice, only touch it, or insert a fresh one. -/
def invoiceRename (db : LedgerDB) (iid : Nat) (company_name time : String) :
    LedgerDB :=
  { db with invoices := db.invoices.map (fun r =>
      if r.id == iid then
        { r with company_name := company_name, updated_at := time }
      else r) }

def invoiceTouch (db : LedgerDB) (iid : Nat) (time : String) : LedgerDB :=
  { db with invoices := db.invoices.map (fun r =>
      if r.id == iid then { r with updated_at := time } else r) }

def invoiceInsert (db : LedgerDB) (year_month company_name time : String) :
    LedgerDB :=
  { db with
    invoices := db.invoices ++
      [{ id := db.next_invoice_id
         year_month := year_month
         company_name := company_name
         created_at := time
         updated_at := time }]
    next_invoice_id := db.next_invoice_id + 1 }

/-- The transaction body of save_monthly_items_batch: idempotency check,
invoice find-or-create, per-note upserts, token record — all inside one
transaction. -/
def saveBatchBody (env : DbEnv) (company_name year_month : String)
    (delivery_notes : List DeliveryNote) (sp request_id time : String)
    (db : LedgerDB) : Except DbErr (Nat × LedgerDB) :=
  if request_id ≠ "" ∧ db.save_requests.contains request_id then
    .ok (0, db)
  else
    match (match find_invoice_id db year_month company_name with
      | some (iid, db_company_name) =>
        if db_company_name ≠ company_name then
          (tryWrite env 0 (invoiceRename db iid company_name time)).map
            (fun p => (iid, p.1, p.2))
        else
          (tryWrite env 0 (invoiceTouch db iid time)).map
            (fun p => (iid, p.1, p.2))
      | none =>
        (tryWrite env 0 (invoiceInsert db year_month company_name time)).map
          (fun p => (db.next_invoice_id, p.1, p.2)) :
      Except DbErr (Nat × LedgerDB × Nat)) with
    | .error e => .error e
    | .ok (invoice_id, db0, k0) =>
      match saveNotesLoop env invoice_id sp time delivery_notes db0 k0 0 with
      | .error e => .error e
      | .ok (saved_count, db1, k1) =>
        if request_id ≠ "" then
          match tryWrite env k1 (recordRequestRow db1 request_id time) with
          | .error e => .error e
          | .ok (db2, _) => .ok (saved_count, db2)
        else
          .ok (saved_count, db1)

/-- database.MonthlyItemsDB.save_monthly_items_batch: all the notes of the
batch in one transaction (commit on success, roll back on any error);
returns the saved count, or 0 when the idempotency token was already
recorded. -/
def save_monthly_items_batch (db : LedgerDB) (company_name year_month : String)
    (delivery_notes : List DeliveryNote) (sales_person request_id time : String)
    (env : DbEnv) : Except DbErr Nat × LedgerDB :=
  with_connection
    (saveBatchBody env company_name year_month delivery_notes
      (stripAllWs sales_person) request_id time) db

structure TotalsRow where
  company_name : String
  year_month : String
  subtotal : Int
  tax : Int
deriving DecidableEq, Repr

/-- Stable insertion used to model the SQL ORDER BY. -/
def insertLe {α : Type} (le : α → α → Bool) (a : α) : List α → List α
  | [] => [a]
  | b :: l => if le a b then a :: b :: l else b :: insertLe le a l

def insertionSort {α : Type} (le : α → α → Bool) : List α → List α
  | [] => []
  | a :: l => insertLe le a (insertionSort le l)

/-- database.MonthlyItemsDB.get_all_monthly_totals: per-invoice sums of the
notes' subtotal and tax, invoices ordered by (year_month, company_name);
the INNER JOIN keeps only invoices owning at least one note. -/
def get_all_monthly_totals (db : LedgerDB) : List TotalsRow :=
  (insertionSort
      (fun a b => decide (a.year_month < b.year_month
        ∨ (a.year_month = b.year_month ∧ a.company_name ≤ b.company_name)))
      db.invoices).filterMap (fun inv =>
    let ns := db.notes.filter (fun n => n.monthly_invoice_id == inv.id)
    if ns.isEmpty then none
    else some
      { company_name := inv.company_name
        year_month := inv.year_month
        subtotal := (ns.map (fun n => n.subtotal)).sum
        tax := (ns.map (fun n => n.tax)).sum })

/-- Modelled from the spec: `MonthlyItemsDB.find_existing_slip_numbers` is
called by the save-billing route (backend-api/routes/billing.py) but its
definition is not under src/.  Spec §4.4: before calling saveBatch, callers
may call a findExistingSlipNumbers query to warn a human operator of an
unintentional re-upload; the error taxonomy (§7) has the pre-commit guard
find "existing slip numbers" for the (company, period) being saved.  The
model resolves the InvoicePeriod the way every other MonthlyItemsDB method
does (_find_invoice_id) and returns the stored notes of that period whose
slip number occurs in the request. -/
def find_existing_slip_numbers (db : LedgerDB) (company_name year_month : String)
    (slip_numbers : List String) : List NoteRow :=
  match find_invoice_id db year_month company_name with
  | none => []
  | some (iid, _) =>
    db.notes.filter (fun n =>
      n.monthly_invoice_id == iid && slip_numbers.contains n.slip_number)

/-! ## External mirror — Google Sheets model

A worksheet is a grid of cells (1-indexed access as in gspread); a
spreadsheet is an association list from the year (worksheet title) to the
worksheet; a missing worksheet raises.  `row_values` / `col_values` /
`cell().value` return formatted strings (a numeric cell is modelled as
rendered in plain decimal); `get(..., unformatted)` returns the raw value.
`update_cell` pads the grid as needed (the real sheet always has the
addressed cell). -/

inductive CellVal
  | empty
  | num (n : Int)
  | str (s : String)
deriving DecidableEq, Repr

abbrev Sheet := List (List CellVal)

abbrev SheetBook := List (Int × Sheet)

def cellToStr : CellVal → String
  | .empty => ""
  | .num n => toString n
  | .str s => s

/-- The raw value an unformatted `get` hands to parse_amount (an empty cell
read falls back to the literal `0`, as in `raw[0][0] if ... else 0`). -/
def cellPy : CellVal → PyVal
  | .empty => .int 0
  | .num n => .int n
  | .str s => .str s

def rowVals (s : Sheet) (r : Nat) : List String :=
  ((s.get? (r - 1)).getD []).map cellToStr

def colVals (s : Sheet) (c : Nat) : List String :=
  s.map (fun row => cellToStr ((row.get? (c - 1)).getD .empty))

def readCellU (s : Sheet) (r c : Nat) : CellVal :=
  (((s.get? (r - 1)).getD []).get? (c - 1)).getD .empty

def padTo (l : List CellVal) (n : Nat) : List CellVal :=
  l ++ List.replicate (n - l.length) .empty

def padRows (g : Sheet) (n : Nat) : Sheet :=
  g ++ List.replicate (n - g.length) []

def update_cell (s : Sheet) (r c : Nat) (v : CellVal) : Sheet :=
  let g := padRows s r
  g.set (r - 1) ((padTo ((g.get? (r - 1)).getD []) c).set (c - 1) v)

/-- Replace the (first) worksheet named `year`. -/
def bookUpdate : SheetBook → Int → Sheet → SheetBook
  | [], _, _ => []
  | (y, sh) :: rest, year, s1 =>
    if y == year then (y, s1) :: rest else (y, sh) :: bookUpdate rest year s1

/-- Read one cell of one year's worksheet of a book. -/
def readB (book : SheetBook) (year : Int) (r c : Nat) : CellVal :=
  match book.lookup year with
  | some s => readCellU s r c
  | none => .empty

/-- sheets_client.GoogleSheetsClient._find_month_column_in_row (also the
inline Row-1 scan of save_billing_record): first cell containing the target
year-month as a substring, 1-indexed. -/
def find_month_column_in_row (row_values : List String)
    (target_year_month : String) : Option Nat :=
  (row_values.findIdx? (fun cell => strContains cell target_year_month)).map
    (fun i => i + 1)

/-- sheets_client.GoogleSheetsClient._parse_year_month: "YYYY/MM/DD" →
"YYYY年M月"; an unparsable numeric field raises (ValueError), fewer than two
fields yield "". -/
def parse_year_month (date_str : String) : Except String String :=
  match splitSecond? date_str '/' with
  | none => .ok ""
  | some p1 =>
    match parseIntPy (splitHead date_str '/'), parseIntPy p1 with
    | some y, some m => .ok (toString y ++ "年" ++ toString m ++ "月")
    | _, _ => .error "ValueError"

/-- sheets_client.GoogleSheetsClient.get_canonical_company_name: match the
company against column A (data rows 3+, blanks dropped) of the year's
billing worksheet; every internal error is caught and yields none. -/
def get_canonical_company_name (book : SheetBook) (company_name : String)
    (year : Int) : Option String :=
  match book.lookup year with
  | none => none
  | some sheet =>
    match_company_name company_name
      (((colVals sheet 1).drop 2).filter (fun v => v ≠ ""))

structure PreviousBilling where
  previous_amount : Int
  payment_received : Int
  carried_over : Int
  sales_amount : Int := 0
  tax_amount : Int := 0
  current_amount : Int := 0
deriving DecidableEq, Repr

/-- sheets_client.GoogleSheetsClient.save_billing_record: resolve the
year-month column in Row 1 and the company row in Column A, then add the
note's subtotal and tax onto the 発生 and 消費税 accumulator cells.  The
silent early returns of the source (missing month column, missing company
row, unparsable date) leave the book unchanged; a missing worksheet or a
parse_amount overflow raises.  The Row-2 label reads of the source are
print-only and have no effect on the result.  previous_billing is unused in
the source body. -/
def save_billing_record (book : SheetBook) (company_name : String)
    (_previous_billing : PreviousBilling) (delivery_note : DeliveryNote)
    (target_year_month : String) : Except String SheetBook :=
  let ymAndYear : Except String (String × Int) :=
    if target_year_month ≠ "" then
      match digits4? target_year_month with
      | some y => .ok (target_year_month, y)
      | none =>
        match parseIntPy (splitHead delivery_note.date '/') with
        | some y => .ok (target_year_month, y)
        | none => .error "ValueError"
    else
      match parse_year_month delivery_note.date with
      | .error e => .error e
      | .ok ym =>
        if ym = "" then .error "unparsable-date-return"
        else
          match parseIntPy (splitHead delivery_note.date '/') with
          | some y => .ok (ym, y)
          | none => .error "ValueError"
  match ymAndYear with
  | .error e => if e = "unparsable-date-return" then .ok book else .error e
  | .ok (year_month, target_year) =>
    match book.lookup target_year with
    | none => .error "WorksheetNotFound"
    | some sheet =>
      match find_month_column_in_row (rowVals sheet 1) year_month with
      | none => .ok book
      | some month_col =>
        match find_company_row company_name (colVals sheet 1) 3 with
        | none => .ok book
        | some company_row =>
          match parse_amount (cellPy (readCellU sheet company_row month_col)),
              parse_amount (cellPy (readCellU sheet company_row (month_col + 1))) with
          | .ok current_hassei, .ok current_tax =>
            .ok (bookUpdate book target_year
              (update_cell
                (update_cell sheet company_row month_col
                  (.num (current_hassei + delivery_note.subtotal)))
                company_row (month_col + 1)
                (.num (current_tax + delivery_note.tax))))
          | _, _ => .error "OverflowError"

/-- sheets_client.GoogleSheetsClient._find_purchase_section_info: classify
Column A marker rows and fold them, in row order, up to the company's row
to decide whether it sits in a 2-rows-per-company or 1-row-per-company
section. -/
def purchaseBoundaries (col_a_values : List String) : List (Nat × String) :=
  (col_a_values.enum.filterMap (fun p =>
    let val := strTrim p.2
    if strContains val "課税仕入れ合計" then some (p.1 + 1, "2row_end")
    else if strContains val "非課税仕入" && !strContains val "合計"
        && !strContains val "検品" then some (p.1 + 1, "1row_start")
    else if strContains val "課税事業者" then some (p.1 + 1, "2row_start")
    else if strContains val "課税外注合計" then some (p.1 + 1, "2row_end")
    else if strContains val "非課税検品" then some (p.1 + 1, "1row_start")
    else if val == "非課税合計金額" then some (p.1 + 1, "1row_end")
    else none))

def sectionFold (company_row : Nat) : List (Nat × String) → String → String
  | [], st => st
  | (row, marker) :: rest, st =>
    if row > company_row then st
    else
      sectionFold company_row rest
        (if marker == "1row_start" then "1row"
         else if marker == "2row_start" then "2row"
         else if marker == "2row_end" then "1row"
         else if marker == "1row_end" then "2row"
         else st)

def find_purchase_section_info (col_a_values : List String)
    (company_row : Nat) : String :=
  sectionFold company_row (purchaseBoundaries col_a_values) "2row"

structure PurchaseInvoice where
  subtotal : Int
  tax : Int
  is_taxable : Bool := true
deriving DecidableEq, Repr

/-- sheets_client.GoogleSheetsClient.save_purchase_record: resolve the
year-month column in Row 2 and the supplier row in Column A (data rows 4+),
pick the target row by section/taxability, then add the invoice amounts
onto the 発生, 消費税 and 残高 cells (all three are written). -/
def save_purchase_record (book : SheetBook) (supplier_name : String)
    (target_year_month : String) (purchase_invoice : PurchaseInvoice)
    (now_year : Int) : Except String SheetBook := do
  let target_year := (digits4? target_year_month).getD now_year
  match book.lookup target_year with
  | none => .error "WorksheetNotFound"
  | some sheet =>
    match find_month_column_in_row (rowVals sheet 2) target_year_month with
    | none => .error "ValueError"
    | some month_col =>
      match find_company_row supplier_name (colVals sheet 1) 4 with
      | none => .error "ValueError"
      | some company_row => do
        let section_type := find_purchase_section_info (colVals sheet 1) company_row
        let hassei_col := month_col
        let tax_col := month_col + 1
        let zandaka_col := month_col + 3
        let target_row :=
          if section_type == "2row" then
            if purchase_invoice.is_taxable then company_row + 1 else company_row
          else company_row
        let current_hassei ←
          match parse_amount (cellPy (readCellU sheet target_row hassei_col)) with
          | .ok n => Except.ok n
          | .error _ => Except.error "OverflowError"
        let current_tax ←
          match parse_amount (cellPy (readCellU sheet target_row tax_col)) with
          | .ok n => Except.ok n
          | .error _ => Except.error "OverflowError"
        let current_zandaka ←
          match parse_amount (cellPy (readCellU sheet target_row zandaka_col)) with
          | .ok n => Except.ok n
          | .error _ => Except.error "OverflowError"
        let s1 := update_cell sheet target_row hassei_col
          (.num (current_hassei + purchase_invoice.subtotal))
        let s2 := update_cell s1 target_row tax_col
          (.num (current_tax + purchase_invoice.tax))
        let s3 := update_cell s2 target_row zandaka_col
          (.num (current_zandaka + purchase_invoice.subtotal + purchase_invoice.tax))
        .ok (bookUpdate book target_year s3)

/-- Month-header columns of Row 1: cells containing both 年 and 月, with
their 0-based index and stripped label. -/
def monthCols (row1 : List String) : List (Nat × String) :=
  (row1.enum.filter (fun p => strContains p.2 "年" && strContains p.2 "月")).map
    (fun p => (p.1, strTrim p.2))

def gbaMonthLoop (row : List String) (company : String) :
    List (Nat × String) → Except PyErr (List TotalsRow)
  | [] => .ok []
  | (colIdx, ymStr) :: rest => do
    let s ← parse_amount (.str ((row.get? colIdx).getD ""))
    let t ← parse_amount (.str ((row.get? (colIdx + 1)).getD ""))
    let others ← gbaMonthLoop row company rest
    .ok ({ company_name := company, year_month := ymStr, subtotal := s, tax := t } :: others)

def gbaRowsLoop (mcols : List (Nat × String)) :
    List (List String) → Except PyErr (List TotalsRow)
  | [] => .ok []
  | row :: rest =>
    if strTrim ((row.get? 0).getD "") = "" then gbaRowsLoop mcols rest
    else do
      let es ← gbaMonthLoop row (strTrim ((row.get? 0).getD "")) mcols
      let others ← gbaRowsLoop mcols rest
      .ok (es ++ others)

/-- sheets_client.GoogleSheetsClient.get_billing_amounts: every
(company, month) 発生/消費税 pair of a year's worksheet, rows 3+, zero rows
included. -/
def get_billing_amounts (book : SheetBook) (year : Int) :
    Except String (List TotalsRow) :=
  match book.lookup year with
  | none => .error "WorksheetNotFound"
  | some sheet =>
    let all := sheet.map (fun row => row.map cellToStr)
    if all.length < 3 then .ok []
    else
      match gbaRowsLoop (monthCols ((all.get? 0).getD [])) (all.drop 2) with
      | .ok es => .ok es
      | .error _ => .error "OverflowError"

/-! ## Web routes — backend-api/routes/billing.py -/

structure DeliveryItemRequest where
  slip_number : String
  product_code : String
  product_name : String
  quantity : Int
  unit_price : Int
  amount : Int
deriving DecidableEq, Repr

structure DeliveryNoteRequest where
  date : String
  company_name : String
  slip_number : String
  items : List DeliveryItemRequest
  subtotal : Int
  tax : Int
  total : Int
  payment_received : Int
deriving DecidableEq, Repr

structure PreviousBillingRequest where
  previous_amount : Int
  payment_received : Int
  carried_over : Int
deriving DecidableEq, Repr

structure SaveBillingRequest where
  company_name : String
  year_month : String
  delivery_notes : List DeliveryNoteRequest
  previous_billing : PreviousBillingRequest
  sales_person : String := ""
  request_id : String := ""
  force_overwrite : Bool := false
deriving DecidableEq, Repr

/-- The JSON body save_billing responds with (the duplicate-conflict
response of the source carries no saved_count key; the model's default 0
stands for its absence). -/
structure SaveBillingResponse where
  success : Bool
  message : String
  saved_count : Nat := 0
  duplicate_conflict : Bool := false
  existing_notes : List NoteRow := []
deriving DecidableEq, Repr

inductive RouteResult
  | resp (r : SaveBillingResponse)
  | httpError (status : Nat) (detail : String)
deriving DecidableEq, Repr

structure RouteState where
  db : LedgerDB
  book : SheetBook
deriving DecidableEq, Repr

structure RouteEnv where
  dbFail : DbEnv
  sheetFail : Nat → Bool

/-- The DeliveryNote the route builds from one request note (company name
replaced by the canonical one). -/
def buildNote (company : String) (nr : DeliveryNoteRequest) : DeliveryNote :=
  { date := nr.date
    company_name := company
    slip_number := nr.slip_number
    items := nr.items.map (fun ir =>
      { slip_number := ir.slip_number, product_code := ir.product_code,
        product_name := ir.product_name, quantity := ir.quantity,
        unit_price := ir.unit_price, amount := ir.amount })
    subtotal := nr.subtotal
    tax := nr.tax
    total := nr.total
    payment_received := nr.payment_received }

/-- The canonical-name resolution step of the route: year taken from the
first note's date when parsable, else the current year; on no canonical
match the raw request name is kept. -/
def resolvedCompany (st : RouteState) (req : SaveBillingRequest)
    (now_year : Int) : String :=
  let target_year : Option Int :=
    match req.delivery_notes.head? with
    | some n0 =>
      if n0.date ≠ "" then parseIntPy (splitHead n0.date '/') else none
    | none => none
  match get_canonical_company_name st.book req.company_name
      (target_year.getD now_year) with
  | some c => c
  | none => req.company_name

/-- The route's year-month conversion: "YYYY-MM" (no 年) is rewritten to
"YYYY年M月"; an unparsable numeric field raises (→ HTTP 500). -/
def ymConvert (ym : String) : Option String :=
  if ym.data.contains '-' && !(ym.data.contains '年') then
    match splitSecond? ym '-' with
    | none => none
    | some p1 =>
      match parseIntPy (splitHead ym '-'), parseIntPy p1 with
      | some a, some b => some (toString a ++ "年" ++ toString b ++ "月")
      | _, _ => none
  else some ym

/-- The nonempty slip numbers of the built notes. -/
def requestSlips (notes : List DeliveryNote) : List String :=
  (notes.map (fun dn => dn.slip_number)).filter (fun s => s ≠ "")

def joinSep (sep : String) : List String → String
  | [] => ""
  | [x] => x
  | x :: xs => x ++ sep ++ joinSep sep xs

/-- Layer 2 of the route: per-note best-effort sheet write; an exception
(oracle-injected network failure or a raise inside save_billing_record) is
caught, recorded as "slip: error", and the loop continues with the
remaining notes and the unchanged book. -/
def sheetLoop (env : RouteEnv) (company ym : String) (pb : PreviousBilling) :
    List DeliveryNote → SheetBook → Nat → SheetBook × List String
  | [], book, _ => (book, [])
  | dn :: rest, book, k =>
    match (if env.sheetFail k then Except.error "network error"
           else save_billing_record book company pb dn ym) with
    | .ok book1 =>
      sheetLoop env company ym pb rest book1 (k + 1)
    | .error err =>
      let r := sheetLoop env company ym pb rest book (k + 1)
      (r.1, (dn.slip_number ++ ": " ++ err) :: r.2)

/-- The success message of the route, with the collected sheet-write
warnings appended when any. -/
def mkSaveMessage (company rawYm : String) (n : Nat) (errs : List String) :
    String :=
  let base := "**売上集計表** の " ++ company ++ " (" ++ rawYm
    ++ ") を更新しました（" ++ toString n ++ "件）"
  if errs.isEmpty then base
  else base ++ "\n⚠️ シート書込で " ++ toString errs.length ++ " 件のエラー: "
    ++ joinSep "; " errs

/-- backend-api/routes/billing.py save_billing: idempotency pre-check,
canonical-name resolution, year-month conversion, duplicate-slip pre-commit
guard (unless force_overwrite), Layer-1 single-transaction batch save,
Layer-2 best-effort per-note mirror writes. -/
def save_billing (st : RouteState) (req : SaveBillingRequest) (time : String)
    (now_year : Int) (env : RouteEnv) : RouteResult × RouteState :=
  if req.request_id ≠ "" ∧ check_request_id st.db req.request_id then
    (.resp { success := true
             message := "この保存リクエストは既に処理済みです"
             saved_count := 0 }, st)
  else
    let company := resolvedCompany st req now_year
    match ymConvert req.year_month with
    | none => (.httpError 500 "ValueError", st)
    | some ym =>
      let pb : PreviousBilling :=
        { previous_amount := req.previous_billing.previous_amount
          payment_received := req.previous_billing.payment_received
          carried_over := req.previous_billing.carried_over }
      let notes := req.delivery_notes.map (buildNote company)
      let existing :=
        if req.force_overwrite then []
        else find_existing_slip_numbers st.db company ym (requestSlips notes)
      if !req.force_overwrite ∧ existing ≠ [] then
        (.resp { success := false
                 message := "以下の伝票番号は既にDBに保存されています"
                 saved_count := 0
                 duplicate_conflict := true
                 existing_notes := existing }, st)
      else
        match save_monthly_items_batch st.db company ym notes
            req.sales_person req.request_id time env.dbFail with
        | (.error _, dbr) => (.httpError 500 "StorageError", { st with db := dbr })
        | (.ok n, db1) =>
          let loop := sheetLoop env company ym pb notes st.book 0
          (.resp { success := true
                   message := mkSaveMessage company req.year_month n loop.2
                   saved_count := n }, { db := db1, book := loop.1 })

/-- The PreviousBilling the route passes to the sheet layer. -/
def pbOf (req : SaveBillingRequest) : PreviousBilling :=
  { previous_amount := req.previous_billing.previous_amount
    payment_received := req.previous_billing.payment_received
    carried_over := req.previous_billing.carried_over }

def c3db : LedgerDB :=
  { invoices := [{ id := 1
                   year_month := "2025年3月"
                   company_name := "Acme"
                   created_at := "T0"
                   updated_at := "T0" }]
    notes := [{ id := 1
                monthly_invoice_id := 1
                slip_number := "S-9"
                date := "2025/03/01"
                sales_person := ""
                subtotal := 100
                tax := 10
                total := 110
                created_at := "T0"
                updated_at := "T0" }]
    next_invoice_id := 2
    next_note_id := 2 }

def c3st : RouteState := { db := c3db, book := [] }

def c3req : SaveBillingRequest :=
  { company_name := "Acme"
    year_month := "2025-03"
    delivery_notes := [{ date := "2025/03/01"
                         company_name := "Acme"
                         slip_number := "S-9"
                         items := []
                         subtotal := 200
                         tax := 20
                         total := 220
                         payment_received := 0 }]
    previous_billing := { previous_amount := 0
                          payment_received := 0
                          carried_over := 0 } }

/-! ## Reconciler — backend-api/routes/billing.py check_discrepancy -/

structure DiscrepancyItem where
  company_name : String
  year_month : String
  db_subtotal : Int
  db_tax : Int
  sheet_subtotal : Int
  sheet_tax : Int
deriving DecidableEq, Repr

def dedupAux : List Int → List Int → List Int
  | [], _ => []
  | x :: xs, seen =>
    if seen.contains x then dedupAux xs seen else x :: dedupAux xs (x :: seen)

def dedupInts (l : List Int) : List Int := dedupAux l []

/-- The years referenced by the Ledger Store aggregates (the Python `set`
of ints is modelled in ascending order; its iteration order is unspecified
in the source), defaulting to the current year when none parses. -/
def collectYears (db_totals : List TotalsRow) (now_year : Int) : List Int :=
  let ys := insertionSort (fun a b => decide (a ≤ b))
    (dedupInts (db_totals.filterMap (fun r => digits4? r.year_month)))
  if ys.isEmpty then [now_year] else ys

/-- All mirror amounts of the referenced years, a failing year skipped, in
year order. -/
def collectSheetAmounts (book : SheetBook) (db_totals : List TotalsRow)
    (now_year : Int) : List TotalsRow :=
  ((collectYears db_totals now_year).map (fun y =>
    match get_billing_amounts book y with
    | .ok es => es
    | .error _ => [])).flatten

/-- The `sheet_by_month` dict building of the route: appending each entry
to the bucket of its year-month, buckets created in first-seen order. -/
def groupInsert (m : List (String × List TotalsRow)) (e : TotalsRow) :
    List (String × List TotalsRow) :=
  match m with
  | [] => [(e.year_month, [e])]
  | (ym, es) :: rest =>
    if ym == e.year_month then (ym, es ++ [e]) :: rest
    else (ym, es) :: groupInsert rest e

def groupByYm (es : List TotalsRow) : List (String × List TotalsRow) :=
  es.foldl groupInsert []

def groupGet (m : List (String × List TotalsRow)) (ym : String) :
    List TotalsRow :=
  (m.lookup ym).getD []

/-- backend-api/routes/billing.py check_discrepancy: compare each Ledger
Store aggregate with the mirror amounts of the matcher-resolved mirror
company ((0, 0) when the month or the company is absent from the mirror)
and report the rows that differ; nothing is written to either store. -/
def check_discrepancy (st : RouteState) (now_year : Int) :
    List DiscrepancyItem :=
  let db_totals := get_all_monthly_totals st.db
  if db_totals.isEmpty then []
  else
    let grouped := groupByYm (collectSheetAmounts st.book db_totals now_year)
    db_totals.filterMap (fun db_item =>
      let entries := groupGet grouped db_item.year_month
      let sheet_data : Option (Int × Int) :=
        if entries.isEmpty then none
        else
          match match_company_name db_item.company_name
              (entries.map (fun e => e.company_name)) with
          | some matched =>
            (entries.find? (fun e => e.company_name == matched)).map
              (fun e => (e.subtotal, e.tax))
          | none => none
      let sd := sheet_data.getD (0, 0)
      if db_item.subtotal ≠ sd.1 ∨ db_item.tax ≠ sd.2 then
        some { company_name := db_item.company_name
               year_month := db_item.year_month
               db_subtotal := db_item.subtotal
               db_tax := db_item.tax
               sheet_subtotal := sd.1
               sheet_tax := sd.2 }
      else none)

/-- The claim's reading of the reconciler's mirror resolution: the mirror
amounts of a Ledger aggregate (company, period) are those of the first
mirror entry of that period carrying the Identity-Matcher-matched name,
zero when no match exists. -/
def claimMirrorAmounts (mirror : List TotalsRow) (company ym : String) :
    Int × Int :=
  let entries := mirror.filter (fun e => e.year_month == ym)
  match match_company_name company (entries.map (fun e => e.company_name)) with
  | some matched =>
    match entries.find? (fun e => e.company_name == matched) with
    | some e => (e.subtotal, e.tax)
    | none => (0, 0)
  | none => (0, 0)

/-- The claim's reading of findDiscrepancies: one record per Ledger
aggregate row whose amounts differ (exact integer inequality) from the
claimMirrorAmounts resolution, equal rows producing nothing. -/
def findDiscrepanciesClaim (st : RouteState) (now_year : Int) :
    List DiscrepancyItem :=
  (get_all_monthly_totals st.db).filterMap (fun r =>
    let sd := claimMirrorAmounts
      (collectSheetAmounts st.book (get_all_monthly_totals st.db) now_year)
      r.company_name r.year_month
    if r.subtotal ≠ sd.1 ∨ r.tax ≠ sd.2 then
      some { company_name := r.company_name
             year_month := r.year_month
             db_subtotal := r.subtotal
             db_tax := r.tax
             sheet_subtotal := sd.1
             sheet_tax := sd.2 }
    else none)

def c7st : RouteState := { db := {}, book := [] }

def c7req : SaveBillingRequest :=
  { company_name := "Acme"
    year_month := "2025-03"
    delivery_notes := [{ date := "2025/03/01"
                         company_name := "Acme"
                         slip_number := "S-1"
                         items := []
                         subtotal := 100
                         tax := 10
                         total := 110
                         payment_received := 0 }]
    previous_billing := { previous_amount := 0
                          payment_received := 0
                          carried_over := 0 }
    force_overwrite := true }

def c7env : RouteEnv := { dbFail := fun _ => false, sheetFail := fun _ => true }

/-! ## Generic instances and list lemmas -/

instance {ε α : Type} [DecidableEq ε] [DecidableEq α] : DecidableEq (Except ε α)
  | .ok a, .ok b =>
    if h : a = b then .isTrue (by rw [h])
    else .isFalse (by intro hc; cases hc; exact h rfl)
  | .error a, .error b =>
    if h : a = b then .isTrue (by rw [h])
    else .isFalse (by intro hc; cases hc; exact h rfl)
  | .ok _, .error _ => .isFalse (by intro hc; cases hc)
  | .error _, .ok _ => .isFalse (by intro hc; cases hc)

def c9billSheet : Sheet :=
  [[.str "相手方一覧", .str "2025年3月", .empty, .empty, .empty],
   [.str "相手方", .str "発生", .str "消費税", .str "消滅", .str "残高"],
   [.str "Acme Co.", .num 1000, .num 100, .empty, .num 1100]]

def c9billBook : SheetBook := [(2025, c9billSheet)]

def c9purchaseBook : SheetBook :=
  [(2025,
    [[.empty],
     [.str "仕入先", .str "2025年1月", .str "消費税", .str "消滅", .str "残高"],
     [.empty],
     [.str "Acme"],
     [.empty, .num 10, .num 1, .empty, .num 11]])]

/-! ## Matcher fallback characterization (claim C5) -/

/-- First element attaining the minimum of f (ties keep the earlier
element). -/
def argminFirst {α : Type} (f : α → Nat) : List α → Option α
  | [] => none
  | a :: l =>
    match argminFirst f l with
    | none => some a
    | some b => if f a ≤ f b then some a else some b

/-! ## Row-change projection lemmas and upsert (claim C6) -/

/-- The ledger after the first (insert-path) call of the C6 scenario:
touch the invoice, insert the note row, insert its item rows. -/
def DB1C (db : LedgerDB) (iid : Nat) (note1 : DeliveryNote) (sp t1 : String) :
    LedgerDB :=
  insertItemRows
    (insertNoteRow (invoiceTouch db iid t1) iid note1 (stripAllWs sp) t1)
    db.next_note_id note1.items

/-- The note row inserted by the first call of the C6 scenario. -/
def N1C (db : LedgerDB) (iid : Nat) (note1 : DeliveryNote) (sp t1 : String) :
    NoteRow :=
  { id := db.next_note_id
    monthly_invoice_id := iid
    slip_number := note1.slip_number
    date := note1.date
    sales_person := stripAllWs sp
    subtotal := note1.subtotal
    tax := note1.tax
    total := note1.total
    created_at := t1
    updated_at := t1 }

def c6db : LedgerDB :=
  { invoices := [{ id := 1
                   year_month := "2025年3月"
                   company_name := "Acme"
                   created_at := "T0"
                   updated_at := "T0" }] }

def c6inv : InvoiceRow :=
  { id := 1
    year_month := "2025年3月"
    company_name := "Acme"
    created_at := "T0"
    updated_at := "T0" }

def c6note1 : DeliveryNote :=
  { date := "2025/03/01"
    company_name := "Acme"
    slip_number := "S-9"
    items := [{ slip_number := "S-9"
                product_code := "P1"
                product_name := "Widget"
                quantity := 2
                unit_price := 50
                amount := 100 }]
    subtotal := 100
    tax := 10
    total := 110 }

def c6note2 : DeliveryNote :=
  { date := "2025/03/05"
    company_name := "Acme"
    slip_number := "S-9"
    items := [{ slip_number := "S-9"
                product_code := "P2"
                product_name := "Gadget"
                quantity := 1
                unit_price := 200
                amount := 200 }]
    subtotal := 200
    tax := 20
    total := 220 }

/-! ## Theorems -/

theorem get?_set_self {α : Type} (l : List α) (i : Nat) (a : α)
    (h : i < l.length) : (l.set i a).get? i = some a := by
  induction l generalizing i with
  | nil => simp at h
  | cons b t ih =>
    cases i with
    | zero => rfl
    | succ j => simpa using ih j (by simpa using h)

theorem get?_set_other {α : Type} (l : List α) (i j : Nat) (a : α)
    (h : i ≠ j) : (l.set i a).get? j = l.get? j := by
  induction l generalizing i j with
  | nil => simp
  | cons b t ih =>
    cases i with
    | zero =>
      cases j with
      | zero => exact absurd rfl h
      | succ k => rfl
    | succ i2 =>
      cases j with
      | zero => rfl
      | succ k => simpa using ih i2 k (by omega)

/-! ## Claim theorems -/

/-- C1: batch save is all-or-nothing — when any write inside
save_monthly_items_batch raises, the transaction rolls back: the Ledger
Store state after the call is exactly the state before it, and so
get_all_monthly_totals shows no note of the batch (never a proper
subset). -/
theorem C1_batch_atomicity (db : LedgerDB) (company year_month : String)
    (notes : List DeliveryNote) (sp rid time : String) (env : DbEnv)
    (e : DbErr)
    (h : (save_monthly_items_batch db company year_month notes sp rid time env).1
      = .error e) :
    (save_monthly_items_batch db company year_month notes sp rid time env).2 = db ∧
    get_all_monthly_totals
        (save_monthly_items_batch db company year_month notes sp rid time env).2
      = get_all_monthly_totals db := by
  unfold save_monthly_items_batch with_connection at h ⊢
  rcases hb : saveBatchBody env company year_month notes (stripAllWs sp) rid time db with
    e2 | ⟨a, db1⟩
  · exact ⟨rfl, rfl⟩
  · rw [hb] at h
    exact Except.noConfusion (show Except.ok a = Except.error e from h)

theorem C1_batch_atomicity_witness :
    (save_monthly_items_batch {} "Acme" "2025年3月"
        [{ date := "2025/03/01", company_name := "Acme", slip_number := "S-1" }]
        "" "" "T1" (fun _ => true)).1 = .error .storage ∧
    (save_monthly_items_batch {} "Acme" "2025年3月"
        [{ date := "2025/03/01", company_name := "Acme", slip_number := "S-1" }]
        "" "" "T1" (fun _ => true)).2 = {} ∧
    get_all_monthly_totals
        (save_monthly_items_batch {} "Acme" "2025年3月"
          [{ date := "2025/03/01", company_name := "Acme", slip_number := "S-1" }]
          "" "" "T1" (fun _ => true)).2
      = get_all_monthly_totals ({} : LedgerDB) :=
  ⟨by decide,
   (C1_batch_atomicity {} "Acme" "2025年3月"
      [{ date := "2025/03/01", company_name := "Acme", slip_number := "S-1" }]
      "" "" "T1" (fun _ => true) .storage (by decide)).1,
   (C1_batch_atomicity {} "Acme" "2025年3月"
      [{ date := "2025/03/01", company_name := "Acme", slip_number := "S-1" }]
      "" "" "T1" (fun _ => true) .storage (by decide)).2⟩

/-- C10 (amended): parse_amount returns an integer without raising exactly
when the input is not an infinite/NaN float and not a string whose cleaned
numeric part denotes an infinity; None, the empty string and non-numeric
strings yield 0, comma/currency-decorated numerals yield their integer
value, and accounting negatives (full parenthesization or a ▲/△ prefix)
yield the negated integer. -/
theorem C10_parse_amount_totality :
    (∀ v : PyVal,
      parse_amount_raises v = false ↔ ∃ n : Int, parse_amount v = .ok n) ∧
    parse_amount .none = .ok 0 ∧
    parse_amount (.str "") = .ok 0 ∧
    parse_amount (.str "abc") = .ok 0 ∧
    parse_amount (.str "¥1,234") = .ok 1234 ∧
    parse_amount (.str "1,234円") = .ok 1234 ∧
    parse_amount (.str "(3,000)") = .ok (-3000) ∧
    parse_amount (.str "▲3,000") = .ok (-3000) ∧
    parse_amount (.str "△3,000") = .ok (-3000) ∧
    parse_amount (.int 42) = .ok 42 := by
  refine ⟨?_, by decide, by decide, by decide, by decide, by decide,
    by decide, by decide, by decide, by decide⟩
  intro v
  cases v with
  | none => simp [parse_amount, parse_amount_raises]
  | int n => simp [parse_amount, parse_amount_raises]
  | float f =>
    cases f <;> simp [parse_amount, parse_amount_raises, intOfPyFloat]
  | str s =>
    by_cases hs : s = ""
    · simp [parse_amount, parse_amount_raises, hs]
    · simp only [parse_amount, parse_amount_raises, hs, if_neg]
      cases hf : pyFloatOfString (parseAmountCleaned s).1 with
      | none => simp
      | some f =>
        cases f with
        | finite num scale => simp [intOfPyFloat]
        | inf => simp [intOfPyFloat]
        | neginf => simp [intOfPyFloat]
        | nan => simp [intOfPyFloat]

/-- C10 counterexample: parse_amount raises an (uncaught) OverflowError on
the string "inf" — int(float("inf")) raises OverflowError and only
ValueError is caught — so it is not total on arbitrary strings. -/
theorem C10_parse_amount_cex :
    parse_amount (.str "inf") = .error .overflowError ∧
    parse_amount (.float .nan) = .error .valueError := by decide

theorem C10_parse_amount_totality_witness :
    parse_amount_raises (.str "1,234") = false ∧
    (∃ n : Int, parse_amount (.str "1,234") = .ok n) :=
  ⟨by decide, (C10_parse_amount_totality.1 (.str "1,234")).mp (by decide)⟩

/-- The normalizer maps the empty string to itself. -/
theorem normalize_empty : normalize_company_name "" = "" := rfl

theorem exactGo_skip (ns : String) (pre : List String)
    (hpre : ∀ x ∈ pre, normalize_company_name x ≠ ns) (rest : List String) :
    exactGo ns (pre ++ rest) = exactGo ns rest := by
  induction pre with
  | nil => rfl
  | cons x t ih =>
    have hx : normalize_company_name x ≠ ns := hpre x (by simp)
    have ht : ∀ y ∈ t, normalize_company_name y ≠ ns :=
      fun y hy => hpre y (by simp [hy])
    by_cases hxe : x == ""
    · simpa [exactGo, hxe] using ih ht
    · have hcond : (ns == normalize_company_name x) = false := by
        simp [beq_iff_eq]
        exact fun hh => hx hh.symm
      simp only [List.cons_append, exactGo, hxe, hcond, Bool.and_false,
        if_false, Bool.false_eq_true]
      exact ih ht

theorem exactGo_hit (ns c : String) (rest : List String)
    (hc : normalize_company_name c = ns) (hne : ns ≠ "") :
    exactGo ns (c :: rest) = some (strTrim c) := by
  have hcne : c ≠ "" := by
    intro hce
    rw [hce, normalize_empty] at hc
    exact hne hc.symm
  have h1 : (c == "") = false := by simp [hcne]
  have h2 : (normalize_company_name c == "") = false := by
    simp [beq_iff_eq, hc, hne]
  have h3 : (ns == normalize_company_name c) = true := by simp [beq_iff_eq, hc]
  simp [exactGo, h1, h2, h3]

/-- C4 (amended): when the normalized search is nonempty and some
candidate's normalized form equals it, match_company_name returns the
first such candidate in input order, stripped of surrounding whitespace
(but otherwise unnormalized) — in particular the exact match wins over any
substring-compatible candidate elsewhere in the list. -/
theorem C4_matcher_exact (s : String) (pre : List String) (c : String)
    (post : List String)
    (h1 : normalize_company_name s ≠ "")
    (hc : normalize_company_name c = normalize_company_name s)
    (hpre : ∀ x ∈ pre, normalize_company_name x ≠ normalize_company_name s) :
    match_company_name s (pre ++ c :: post) = some (strTrim c) := by
  have hns : (normalize_company_name s == "") = false := by simp [h1]
  have hex : exactGo (normalize_company_name s) (pre ++ c :: post)
      = some (strTrim c) := by
    rw [exactGo_skip (normalize_company_name s) pre hpre (c :: post)]
    exact exactGo_hit (normalize_company_name s) c post hc h1
  simp [match_company_name, hns, hex]

/-- C4 counterexample: the string the matcher returns on an exact match is
the stripped candidate, not the original candidate string — searching
"Acme" among [" Acme "] returns "Acme", not " Acme " (and the exact pass
is skipped entirely when the search itself normalizes to empty). -/
theorem C4_matcher_exact_cex :
    normalize_company_name " Acme " = normalize_company_name "Acme" ∧
    match_company_name "Acme" [" Acme "] = some "Acme" ∧
    some "Acme" ≠ some (" Acme " : String) := by decide

theorem C4_matcher_exact_witness :
    (normalize_company_name "Acme" ≠ "" ∧
      normalize_company_name "Acme" = normalize_company_name "Acme" ∧
      (∀ x ∈ ["Acme Division X"],
        normalize_company_name x ≠ normalize_company_name "Acme")) ∧
    match_company_name "Acme" (["Acme Division X"] ++ "Acme" :: [])
      = some (strTrim "Acme") :=
  ⟨⟨by decide, rfl, by decide⟩,
   C4_matcher_exact "Acme" ["Acme Division X"] "Acme" []
    (by decide) rfl (by decide)⟩

/-! ## Sheet frame lemmas -/

theorem getD_replicate {α : Type} (d : α) (m i : Nat) :
    ((List.replicate m d).get? i).getD d = d := by
  induction m generalizing i with
  | zero => rfl
  | succ k ih =>
    cases i with
    | zero => rfl
    | succ j => simpa [List.replicate] using ih j

theorem getD_append_replicate {α : Type} (d : α) (l : List α) (m i : Nat) :
    ((l ++ List.replicate m d).get? i).getD d = (l.get? i).getD d := by
  induction l generalizing i with
  | nil => simpa using getD_replicate d m i
  | cons a t ih =>
    cases i with
    | zero => rfl
    | succ j => simpa using ih j

theorem length_padRows (s : Sheet) (n : Nat) : n ≤ (padRows s n).length := by
  unfold padRows
  simp only [List.length_append, List.length_replicate]
  omega

theorem length_padTo (l : List CellVal) (n : Nat) : n ≤ (padTo l n).length := by
  unfold padTo
  simp only [List.length_append, List.length_replicate]
  omega

theorem readCellU_update_same (s : Sheet) (r c : Nat) (v : CellVal)
    (hr : 1 ≤ r) (hc : 1 ≤ c) : readCellU (update_cell s r c v) r c = v := by
  unfold readCellU update_cell
  have h1 : r - 1 < (padRows s r).length := by
    have := length_padRows s r; omega
  rw [get?_set_self _ _ _ h1]
  have h2 : c - 1 < (padTo (((padRows s r).get? (r - 1)).getD []) c).length := by
    have := length_padTo (((padRows s r).get? (r - 1)).getD []) c; omega
  rw [Option.getD_some, get?_set_self _ _ _ h2, Option.getD_some]

theorem readCellU_update_other (s : Sheet) (r c : Nat) (v : CellVal)
    (r2 c2 : Nat) (hr : 1 ≤ r) (hc : 1 ≤ c) (hr2 : 1 ≤ r2) (hc2 : 1 ≤ c2)
    (hne : ¬(r2 = r ∧ c2 = c)) :
    readCellU (update_cell s r c v) r2 c2 = readCellU s r2 c2 := by
  unfold readCellU update_cell
  by_cases hrr : r2 = r
  · subst hrr
    have hcc : c2 ≠ c := fun hcc => hne ⟨rfl, hcc⟩
    have h1 : r2 - 1 < (padRows s r2).length := by
      have := length_padRows s r2; omega
    rw [get?_set_self _ _ _ h1]
    simp only [Option.getD_some]
    rw [get?_set_other _ _ _ _ (by omega : c - 1 ≠ c2 - 1)]
    rw [show ((padTo (((padRows s r2).get? (r2 - 1)).getD []) c).get? (c2 - 1)).getD .empty
        = ((((padRows s r2).get? (r2 - 1)).getD []).get? (c2 - 1)).getD .empty
      from getD_append_replicate _ _ _ _]
    rw [show (((padRows s r2).get? (r2 - 1)).getD []) = ((s.get? (r2 - 1)).getD [])
      from getD_append_replicate _ _ _ _]
  · rw [get?_set_other _ _ _ _ (by omega : r - 1 ≠ r2 - 1)]
    rw [show (((padRows s r).get? (r2 - 1)).getD []) = ((s.get? (r2 - 1)).getD [])
      from getD_append_replicate _ _ _ _]

theorem lookup_bookUpdate_self (book : SheetBook) (year : Int) (s1 : Sheet)
    (h : (book.lookup year).isSome) :
    (bookUpdate book year s1).lookup year = some s1 := by
  induction book with
  | nil => simp [List.lookup] at h
  | cons p rest ih =>
    obtain ⟨y, sh⟩ := p
    by_cases hy : y = year
    · subst hy
      simp [bookUpdate, List.lookup]
    · have hb : (y == year) = false := by simp [hy]
      have hb2 : (year == y) = false := by simp [beq_iff_eq]; exact fun hh => hy hh.symm
      simp only [bookUpdate, hb, Bool.false_eq_true, if_false]
      simp only [List.lookup, hb2] at h ⊢
      exact ih h

theorem lookup_bookUpdate_other (book : SheetBook) (year : Int) (s1 : Sheet)
    (y : Int) (hy : y ≠ year) :
    (bookUpdate book year s1).lookup y = book.lookup y := by
  induction book with
  | nil => rfl
  | cons p rest ih =>
    obtain ⟨k, sh⟩ := p
    by_cases hk : k = year
    · subst hk
      have hb : (y == k) = false := by simp [hy]
      simp [bookUpdate, List.lookup, hb]
    · have hb : (k == year) = false := by simp [hk]
      simp only [bookUpdate, hb, Bool.false_eq_true, if_false]
      simp only [List.lookup]
      cases hyk : y == k
      · exact ih
      · rfl

theorem find_month_col_pos (row : List String) (ym : String) (m : Nat)
    (h : find_month_column_in_row row ym = some m) : 1 ≤ m := by
  unfold find_month_column_in_row at h
  cases hfi : row.findIdx? (fun cell => strContains cell ym) with
  | none => rw [hfi] at h; simp at h
  | some i => rw [hfi] at h; simp at h; omega

theorem find_company_row_ge (c : String) (l : List String) (k r : Nat)
    (h : find_company_row c l k = some r) : k ≤ r := by
  unfold find_company_row at h
  cases hm : match_company_name c (l.drop (k - 1)) with
  | none => rw [hm] at h; simp at h
  | some matched =>
    rw [hm] at h
    simp only [Option.map_eq_some'] at h
    obtain ⟨i, _, hik⟩ := h
    omega

theorem digits4?_ne_empty (t : String) (y : Int) (h : digits4? t = some y) :
    t ≠ "" := by
  intro he
  subst he
  simp [digits4?] at h

/-- C9 (amended): save_billing_record — the billing-ledger mirrorAmounts
write — updates exactly the two accumulator cells of the resolved
(company row, month column): the 発生 cell and the 消費税 cell, each set to
its previously read value plus the note's delta; every other cell of every
worksheet, in particular the 消滅 (payment) and 残高 (balance) cells of
that row, is untouched.  (save_purchase_record, by contrast, also writes
the balance cell — see the counterexample.) -/
theorem C9_billing_mirror_frame (book : SheetBook) (company : String)
    (pb : PreviousBilling) (dn : DeliveryNote) (tym : String) (year : Int)
    (sheet : Sheet) (mc cr : Nat) (h0 t0 : Int)
    (hy : digits4? tym = some year)
    (hs : book.lookup year = some sheet)
    (hmc : find_month_column_in_row (rowVals sheet 1) tym = some mc)
    (hcr : find_company_row company (colVals sheet 1) 3 = some cr)
    (hph : parse_amount (cellPy (readCellU sheet cr mc)) = .ok h0)
    (hpt : parse_amount (cellPy (readCellU sheet cr (mc + 1))) = .ok t0) :
    ∃ book2, save_billing_record book company pb dn tym = .ok book2 ∧
      readB book2 year cr mc = .num (h0 + dn.subtotal) ∧
      readB book2 year cr (mc + 1) = .num (t0 + dn.tax) ∧
      (∀ y r c, 1 ≤ r → 1 ≤ c →
        ¬(y = year ∧ r = cr ∧ (c = mc ∨ c = mc + 1)) →
        readB book2 y r c = readB book y r c) := by
  have htym : tym ≠ "" := digits4?_ne_empty tym year hy
  have hmcp : 1 ≤ mc := find_month_col_pos _ _ _ hmc
  have hcrp : 1 ≤ cr := by
    have := find_company_row_ge company (colVals sheet 1) 3 cr hcr; omega
  have hrun : save_billing_record book company pb dn tym
      = .ok (bookUpdate book year
          (update_cell
            (update_cell sheet cr mc (.num (h0 + dn.subtotal)))
            cr (mc + 1) (.num (t0 + dn.tax)))) := by
    simp only [save_billing_record, if_pos htym, hy, hs, hmc, hcr, hph, hpt]
  refine ⟨_, hrun, ?_, ?_, ?_⟩
  · unfold readB
    rw [lookup_bookUpdate_self book year _ (by rw [hs]; rfl)]
    show readCellU
        (update_cell (update_cell sheet cr mc (.num (h0 + dn.subtotal)))
          cr (mc + 1) (.num (t0 + dn.tax))) cr mc = .num (h0 + dn.subtotal)
    rw [readCellU_update_other
        (update_cell sheet cr mc (.num (h0 + dn.subtotal))) cr (mc + 1)
        (.num (t0 + dn.tax)) cr mc hcrp (by omega) hcrp hmcp
        (fun hcon => absurd hcon.2 (by omega))]
    exact readCellU_update_same sheet cr mc _ hcrp hmcp
  · unfold readB
    rw [lookup_bookUpdate_self book year _ (by rw [hs]; rfl)]
    show readCellU
        (update_cell (update_cell sheet cr mc (.num (h0 + dn.subtotal)))
          cr (mc + 1) (.num (t0 + dn.tax))) cr (mc + 1) = .num (t0 + dn.tax)
    exact readCellU_update_same _ cr (mc + 1) _ hcrp (by omega)
  · intro y r c hr hc hne
    by_cases hyy : y = year
    · subst hyy
      unfold readB
      rw [lookup_bookUpdate_self book y _ (by rw [hs]; rfl), hs]
      show readCellU
          (update_cell (update_cell sheet cr mc (.num (h0 + dn.subtotal)))
            cr (mc + 1) (.num (t0 + dn.tax))) r c = readCellU sheet r c
      rw [readCellU_update_other
          (update_cell sheet cr mc (.num (h0 + dn.subtotal))) cr (mc + 1)
          (.num (t0 + dn.tax)) r c hcrp (by omega) hr hc
          (fun hcon => hne ⟨rfl, hcon.1, Or.inr hcon.2⟩)]
      exact readCellU_update_other sheet cr mc _ r c hcrp hmcp hr hc
        (fun hcon => hne ⟨rfl, hcon.1, Or.inl hcon.2⟩)
    · unfold readB
      rw [lookup_bookUpdate_other book year _ y hyy]

theorem C9_billing_mirror_frame_witness :
    (digits4? "2025年3月" = some 2025 ∧
      c9billBook.lookup 2025 = some c9billSheet) ∧
    (∃ book2, save_billing_record c9billBook "株式会社Acme"
        { previous_amount := 0, payment_received := 0, carried_over := 0 }
        { date := "2025/03/05", company_name := "Acme", slip_number := "S-1",
          subtotal := 500, tax := 50, total := 550 }
        "2025年3月" = .ok book2 ∧
      readB book2 2025 3 2 = .num (1000 + 500) ∧
      readB book2 2025 3 (2 + 1) = .num (100 + 50) ∧
      (∀ y r c, 1 ≤ r → 1 ≤ c →
        ¬(y = 2025 ∧ r = 3 ∧ (c = 2 ∨ c = 2 + 1)) →
        readB book2 y r c = readB c9billBook y r c)) :=
  ⟨⟨by decide, by decide⟩,
   C9_billing_mirror_frame c9billBook "株式会社Acme"
    { previous_amount := 0, payment_received := 0, carried_over := 0 }
    { date := "2025/03/05", company_name := "Acme", slip_number := "S-1",
      subtotal := 500, tax := 50, total := 550 }
    "2025年3月" 2025 c9billSheet 2 3 1000 100
    (by decide) (by decide) (by decide) (by decide) (by decide) (by decide)⟩

/-- C9 counterexample: the purchase-ledger mirror write
(save_purchase_record, cited by the claim) writes the derived balance
(残高) cell — here the cell at row 5, column 5 (month column 2 + 3) goes
from 11 to 1111 — so the claim that the engine never writes the balance
cell is false as stated. -/
theorem C9_billing_mirror_frame_cex :
    (save_purchase_record c9purchaseBook "Acme" "2025年1月"
        { subtotal := 1000, tax := 100 } 2025).map
      (fun b2 => readB b2 2025 5 5) = .ok (.num 1111) ∧
    readB c9purchaseBook 2025 5 5 = .num 11 := by decide

theorem argminFirst_cons_none {α : Type} (f : α → Nat) (a : α) (l : List α)
    (h : argminFirst f l = none) : argminFirst f (a :: l) = some a := by
  unfold argminFirst
  rw [h]

theorem argminFirst_cons_some {α : Type} (f : α → Nat) (a : α) (l : List α)
    (b : α) (h : argminFirst f l = some b) :
    argminFirst f (a :: l) = if f a ≤ f b then some a else some b := by
  unfold argminFirst
  rw [h]

theorem argminFirst_eq_none {α : Type} (f : α → Nat) (l : List α) :
    argminFirst f l = none ↔ l = [] := by
  cases l with
  | nil => simp [argminFirst]
  | cons a t =>
    cases ha : argminFirst f t with
    | none => rw [argminFirst_cons_none f a t ha]; simp
    | some b =>
      rw [argminFirst_cons_some f a t b ha]
      by_cases h : f a ≤ f b <;> simp [h]

theorem argminFirst_mem {α : Type} (f : α → Nat) {l : List α} {w : α}
    (h : argminFirst f l = some w) : w ∈ l := by
  induction l with
  | nil => simp [argminFirst] at h
  | cons a t ih =>
    cases ha : argminFirst f t with
    | none =>
      rw [argminFirst_cons_none f a t ha] at h
      simp at h
      simp [h]
    | some b =>
      rw [argminFirst_cons_some f a t b ha] at h
      by_cases hab : f a ≤ f b
      · rw [if_pos hab] at h; simp at h; simp [h]
      · rw [if_neg hab] at h; simp at h
        have haw : argminFirst f t = some w := by rw [ha, h]
        exact List.mem_cons_of_mem a (ih haw)

theorem argminFirst_le {α : Type} (f : α → Nat) :
    ∀ (l : List α) (w : α), argminFirst f l = some w → ∀ x ∈ l, f w ≤ f x := by
  intro l
  induction l with
  | nil => intro w h; simp [argminFirst] at h
  | cons a t ih =>
    intro w h
    cases ha : argminFirst f t with
    | none =>
      rw [argminFirst_cons_none f a t ha] at h
      simp at h
      have ht : t = [] := (argminFirst_eq_none f t).mp ha
      subst ht
      subst h
      simp
    | some b =>
      rw [argminFirst_cons_some f a t b ha] at h
      by_cases hab : f a ≤ f b
      · rw [if_pos hab] at h; simp at h
        intro x hx
        rcases List.mem_cons.mp hx with hx | hx
        · subst hx; rw [← h]
        · have hbx := ih b ha x hx
          rw [← h]
          exact le_trans hab hbx
      · rw [if_neg hab] at h; simp at h
        intro x hx
        rcases List.mem_cons.mp hx with hx | hx
        · subst hx
          rw [← h]
          omega
        · have hbx := ih b ha x hx
          rw [← h]
          exact hbx

theorem argminFirst_first {α : Type} (f : α → Nat) {l : List α} {w : α}
    (h : argminFirst f l = some w) :
    l.find? (fun x => f x == f w) = some w := by
  induction l with
  | nil => simp [argminFirst] at h
  | cons a t ih =>
    cases ha : argminFirst f t with
    | none =>
      rw [argminFirst_cons_none f a t ha] at h
      simp at h
      subst h
      simp [List.find?]
    | some b =>
      rw [argminFirst_cons_some f a t b ha] at h
      by_cases hab : f a ≤ f b
      · rw [if_pos hab] at h; simp at h
        subst h
        simp [List.find?]
      · rw [if_neg hab] at h; simp at h
        have hfw : f w < f a := by rw [← h]; omega
        have hfa : (f a == f w) = false := by
          simp [beq_iff_eq]
          omega
        simp only [List.find?]
        rw [hfa]
        have haw : argminFirst f t = some w := by rw [ha, h]
        exact ih haw

theorem fallbackElig_false_parts (ns c : String) (h : fallbackElig ns c = false) :
    (c == "") = true ∨ (normalize_company_name c == "") = true ∨
    (isSubstrOf ns.data (normalize_company_name c).data
      || isSubstrOf (normalize_company_name c).data ns.data) = false := by
  unfold fallbackElig at h
  cases h1 : (c == "")
  · cases h2 : (normalize_company_name c == "")
    · cases h3 : (isSubstrOf ns.data (normalize_company_name c).data
          || isSubstrOf (normalize_company_name c).data ns.data)
      · exact Or.inr (Or.inr rfl)
      · rw [h1, h2, h3] at h; simp at h
    · exact Or.inr (Or.inl rfl)
  · exact Or.inl rfl

theorem fallbackElig_true_parts (ns c : String) (h : fallbackElig ns c = true) :
    (c == "") = false ∧ (normalize_company_name c == "") = false ∧
    (isSubstrOf ns.data (normalize_company_name c).data
      || isSubstrOf (normalize_company_name c).data ns.data) = true := by
  unfold fallbackElig at h
  cases h1 : (c == "")
  · cases h2 : (normalize_company_name c == "")
    · cases h3 : (isSubstrOf ns.data (normalize_company_name c).data
          || isSubstrOf (normalize_company_name c).data ns.data)
      · rw [h1, h2, h3] at h; simp at h
      · exact ⟨rfl, rfl, rfl⟩
    · rw [h1, h2] at h; simp at h
  · rw [h1] at h; simp at h

theorem fallbackGo_cons_skip (ns c : String) (rest : List String)
    (best : Option (String × Nat)) (h : fallbackElig ns c = false) :
    fallbackGo ns (c :: rest) best = fallbackGo ns rest best := by
  rcases fallbackElig_false_parts ns c h with h1 | h2 | h3
  · simp [fallbackGo, h1]
  · by_cases h1 : (c == "") = true
    · simp [fallbackGo, h1]
    · simp [fallbackGo, eq_false_of_ne_true h1, h2]
  · by_cases h1 : (c == "") = true
    · simp [fallbackGo, h1]
    · by_cases h2 : (normalize_company_name c == "") = true
      · simp [fallbackGo, eq_false_of_ne_true h1, h2]
      · simp [fallbackGo, eq_false_of_ne_true h1, eq_false_of_ne_true h2, h3]

theorem fallbackGo_cons_elig_none (ns c : String) (rest : List String)
    (h : fallbackElig ns c = true) :
    fallbackGo ns (c :: rest) none
      = fallbackGo ns rest (some (strTrim c, fdiff ns c)) := by
  obtain ⟨h1, h2, h3⟩ := fallbackElig_true_parts ns c h
  simp [fallbackGo, h1, h2, h3, fdiff]

theorem fallbackGo_cons_elig_acc (ns c : String) (rest : List String)
    (b : String) (bd : Nat) (h : fallbackElig ns c = true) :
    fallbackGo ns (c :: rest) (some (b, bd))
      = if fdiff ns c < bd then
          fallbackGo ns rest (some (strTrim c, fdiff ns c))
        else fallbackGo ns rest (some (b, bd)) := by
  obtain ⟨h1, h2, h3⟩ := fallbackElig_true_parts ns c h
  simp [fallbackGo, h1, h2, h3, fdiff]

theorem fallbackGo_acc (ns : String) (cands : List String) :
    ∀ b bd, fallbackGo ns cands (some (b, bd)) =
      match argminFirst (fdiff ns) (cands.filter (fallbackElig ns)) with
      | none => some b
      | some w => if fdiff ns w < bd then some (strTrim w) else some b := by
  induction cands with
  | nil => intro b bd; rfl
  | cons c rest ih =>
    intro b bd
    by_cases he : fallbackElig ns c = true
    · rw [fallbackGo_cons_elig_acc ns c rest b bd he,
        List.filter_cons_of_pos he]
      cases ha : argminFirst (fdiff ns) (rest.filter (fallbackElig ns)) with
      | none =>
        rw [argminFirst_cons_none (fdiff ns) c _ ha]
        show (if fdiff ns c < bd then
            fallbackGo ns rest (some (strTrim c, fdiff ns c))
          else fallbackGo ns rest (some (b, bd)))
          = if fdiff ns c < bd then some (strTrim c) else some b
        by_cases hlt : fdiff ns c < bd
        · rw [if_pos hlt, if_pos hlt, ih, ha]
        · rw [if_neg hlt, if_neg hlt, ih, ha]
      | some w =>
        rw [argminFirst_cons_some (fdiff ns) c _ w ha]
        by_cases hcw : fdiff ns c ≤ fdiff ns w
        · rw [if_pos hcw]
          show (if fdiff ns c < bd then
              fallbackGo ns rest (some (strTrim c, fdiff ns c))
            else fallbackGo ns rest (some (b, bd)))
            = if fdiff ns c < bd then some (strTrim c) else some b
          by_cases hlt : fdiff ns c < bd
          · rw [if_pos hlt, if_pos hlt, ih, ha]
            show (if fdiff ns w < fdiff ns c then some (strTrim w)
                else some (strTrim c)) = some (strTrim c)
            rw [if_neg (by omega : ¬ fdiff ns w < fdiff ns c)]
          · rw [if_neg hlt, if_neg hlt, ih, ha]
            show (if fdiff ns w < bd then some (strTrim w) else some b)
              = some b
            rw [if_neg (by omega : ¬ fdiff ns w < bd)]
        · rw [if_neg hcw]
          have hwc : fdiff ns w < fdiff ns c := by omega
          show (if fdiff ns c < bd then
              fallbackGo ns rest (some (strTrim c, fdiff ns c))
            else fallbackGo ns rest (some (b, bd)))
            = if fdiff ns w < bd then some (strTrim w) else some b
          by_cases hlt : fdiff ns c < bd
          · rw [if_pos hlt, ih, ha]
            show (if fdiff ns w < fdiff ns c then some (strTrim w)
                else some (strTrim c))
              = if fdiff ns w < bd then some (strTrim w) else some b
            rw [if_pos hwc, if_pos (by omega : fdiff ns w < bd)]
          · rw [if_neg hlt, ih, ha]
    · have hef : fallbackElig ns c = false := eq_false_of_ne_true he
      rw [fallbackGo_cons_skip ns c rest _ hef,
        List.filter_cons_of_neg (by simp [hef]), ih]

theorem fallbackGo_none_eq (ns : String) (cands : List String) :
    fallbackGo ns cands none
      = (argminFirst (fdiff ns) (cands.filter (fallbackElig ns))).map strTrim := by
  induction cands with
  | nil => rfl
  | cons c rest ih =>
    by_cases he : fallbackElig ns c = true
    · rw [fallbackGo_cons_elig_none ns c rest he,
        fallbackGo_acc ns rest (strTrim c) (fdiff ns c),
        List.filter_cons_of_pos he]
      cases ha : argminFirst (fdiff ns) (rest.filter (fallbackElig ns)) with
      | none => rw [argminFirst_cons_none (fdiff ns) c _ ha]; rfl
      | some w =>
        rw [argminFirst_cons_some (fdiff ns) c _ w ha]
        by_cases hcw : fdiff ns c ≤ fdiff ns w
        · rw [if_pos hcw]
          show (if fdiff ns w < fdiff ns c then some (strTrim w)
              else some (strTrim c)) = (some c).map strTrim
          rw [if_neg (by omega : ¬ fdiff ns w < fdiff ns c)]
          rfl
        · rw [if_neg hcw]
          show (if fdiff ns w < fdiff ns c then some (strTrim w)
              else some (strTrim c)) = (some w).map strTrim
          rw [if_pos (by omega : fdiff ns w < fdiff ns c)]
          rfl
    · have hef : fallbackElig ns c = false := eq_false_of_ne_true he
      rw [fallbackGo_cons_skip ns c rest _ hef,
        List.filter_cons_of_neg (by simp [hef]), ih]

theorem exactGo_eq_none (ns : String) (cands : List String)
    (h : ∀ c ∈ cands, normalize_company_name c ≠ ns) :
    exactGo ns cands = none := by
  have := exactGo_skip ns cands h []
  rwa [List.append_nil] at this

/-- C5 (amended): with a non-empty normalized search and no exactly
matching candidate, the fallback pass of match_company_name considers
exactly the candidates with a NON-EMPTY normalized form that is a
substring of the normalized search or vice versa: it returns none exactly
when no such candidate exists, and otherwise returns (stripped) the first
considered candidate minimizing the normalized-length distance — ties
broken by first occurrence in input order. -/
theorem C5_matcher_fallback (s : String) (cands : List String)
    (h1 : normalize_company_name s ≠ "")
    (h2 : ∀ c ∈ cands, normalize_company_name c ≠ normalize_company_name s) :
    (match_company_name s cands = none ↔
      cands.filter (fallbackElig (normalize_company_name s)) = []) ∧
    (cands.filter (fallbackElig (normalize_company_name s)) ≠ [] →
      ∃ w ∈ cands.filter (fallbackElig (normalize_company_name s)),
        match_company_name s cands = some (strTrim w) ∧
        (∀ c ∈ cands.filter (fallbackElig (normalize_company_name s)),
          fdiff (normalize_company_name s) w
            ≤ fdiff (normalize_company_name s) c) ∧
        (cands.filter (fallbackElig (normalize_company_name s))).find?
            (fun c => fdiff (normalize_company_name s) c
              == fdiff (normalize_company_name s) w) = some w) := by
  have hns : (normalize_company_name s == "") = false := by simp [h1]
  have hex : exactGo (normalize_company_name s) cands = none :=
    exactGo_eq_none _ _ h2
  have hm : match_company_name s cands
      = (argminFirst (fdiff (normalize_company_name s))
          (cands.filter (fallbackElig (normalize_company_name s)))).map strTrim := by
    rw [show match_company_name s cands
        = fallbackGo (normalize_company_name s) cands none from by
      simp [match_company_name, hns, hex]]
    exact fallbackGo_none_eq _ _
  constructor
  · rw [hm]
    constructor
    · intro h
      cases ha : argminFirst (fdiff (normalize_company_name s))
          (cands.filter (fallbackElig (normalize_company_name s))) with
      | none => exact (argminFirst_eq_none _ _).mp ha
      | some w => rw [ha] at h; simp at h
    · intro h
      rw [h]
      rfl
  · intro hne
    cases ha : argminFirst (fdiff (normalize_company_name s))
        (cands.filter (fallbackElig (normalize_company_name s))) with
    | none => exact absurd ((argminFirst_eq_none _ _).mp ha) hne
    | some w =>
      refine ⟨w, argminFirst_mem _ ha, ?_, argminFirst_le _ _ _ ha,
        argminFirst_first _ ha⟩
      rw [hm, ha]
      rfl

/-- C5 counterexample: a candidate whose normalized form is EMPTY is
substring-compatible in the claim's sense ("" is a substring of every
normalized search), yet the source skips it: searching "A" among ["御中"]
(which normalizes to "") returns none, where the claim as stated requires
the fallback pass to consider and return it. -/
theorem C5_matcher_fallback_cex :
    normalize_company_name "A" ≠ "" ∧
    (∀ c ∈ ["御中"],
      normalize_company_name c ≠ normalize_company_name "A") ∧
    isSubstrOf (normalize_company_name "御中").data
      (normalize_company_name "A").data = true ∧
    match_company_name "A" ["御中"] = none := by decide

theorem C5_matcher_fallback_witness :
    (normalize_company_name "AcmeDiv" ≠ "" ∧
      (∀ c ∈ ["Acme", "AcmeDivX"],
        normalize_company_name c ≠ normalize_company_name "AcmeDiv")) ∧
    ((match_company_name "AcmeDiv" ["Acme", "AcmeDivX"] = none ↔
      ["Acme", "AcmeDivX"].filter
        (fallbackElig (normalize_company_name "AcmeDiv")) = []) ∧
    (["Acme", "AcmeDivX"].filter
        (fallbackElig (normalize_company_name "AcmeDiv")) ≠ [] →
      ∃ w ∈ ["Acme", "AcmeDivX"].filter
          (fallbackElig (normalize_company_name "AcmeDiv")),
        match_company_name "AcmeDiv" ["Acme", "AcmeDivX"] = some (strTrim w) ∧
        (∀ c ∈ ["Acme", "AcmeDivX"].filter
            (fallbackElig (normalize_company_name "AcmeDiv")),
          fdiff (normalize_company_name "AcmeDiv") w
            ≤ fdiff (normalize_company_name "AcmeDiv") c) ∧
        (["Acme", "AcmeDivX"].filter
            (fallbackElig (normalize_company_name "AcmeDiv"))).find?
            (fun c => fdiff (normalize_company_name "AcmeDiv") c
              == fdiff (normalize_company_name "AcmeDiv") w) = some w)) :=
  ⟨⟨by decide, by decide⟩,
   C5_matcher_fallback "AcmeDiv" ["Acme", "AcmeDivX"] (by decide) (by decide)⟩

/-! ## Batch-writer execution lemmas (claims C2, C6) -/

theorem tryWrite_noFail (env : DbEnv) (henv : ∀ k, env k = false) (k : Nat)
    (db : LedgerDB) : tryWrite env k db = .ok (db, k + 1) := by
  simp [tryWrite, henv k]

theorem insertItemsLoop_noFail (env : DbEnv) (henv : ∀ k, env k = false)
    (nid : Nat) : ∀ (items : List DeliveryItem) (db : LedgerDB) (k : Nat),
    insertItemsLoop env nid items db k
      = .ok (insertItemRows db nid items, k + items.length) := by
  intro items
  induction items with
  | nil =>
    intro db k
    simp [insertItemsLoop, insertItemRows]
  | cons it rest ih =>
    intro db k
    simp only [insertItemsLoop, tryWrite_noFail env henv]
    rw [ih]
    simp only [insertItemRows, List.map_cons, List.length_cons]
    rw [Except.ok.injEq, Prod.mk.injEq]
    constructor
    · simp [List.append_assoc]
    · omega

theorem saveNotesLoop_noFail (env : DbEnv) (henv : ∀ k, env k = false)
    (inv : Nat) (sp t : String) :
    ∀ (notes : List DeliveryNote) (db : LedgerDB) (k count : Nat),
    ∃ db2 k2, saveNotesLoop env inv sp t notes db k count
        = .ok (count + notes.length, db2, k2) ∧
      db2.save_requests = db.save_requests := by
  intro notes
  induction notes with
  | nil =>
    intro db k count
    exact ⟨db, k, by simp [saveNotesLoop], rfl⟩
  | cons dn rest ih =>
    intro db k count
    simp only [saveNotesLoop]
    cases hf : db.notes.find? (fun n =>
        n.monthly_invoice_id == inv && n.slip_number == dn.slip_number) with
    | some existing =>
      simp only [tryWrite_noFail env henv, insertItemsLoop_noFail env henv]
      obtain ⟨db2, k2, heq, hpres⟩ := ih
        (insertItemRows (deleteItemRows (updateNoteRows db existing.id dn sp t)
          existing.id) existing.id dn.items)
        (k + 1 + 1 + dn.items.length) (count + 1)
      refine ⟨db2, k2, ?_, ?_⟩
      · rw [heq]
        rw [Except.ok.injEq, Prod.mk.injEq]
        exact ⟨by simp; omega, rfl⟩
      · exact hpres
    | none =>
      simp only [tryWrite_noFail env henv, insertItemsLoop_noFail env henv]
      obtain ⟨db2, k2, heq, hpres⟩ := ih
        (insertItemRows (insertNoteRow db inv dn sp t) db.next_note_id dn.items)
        (k + 1 + dn.items.length) (count + 1)
      refine ⟨db2, k2, ?_, ?_⟩
      · rw [heq]
        rw [Except.ok.injEq, Prod.mk.injEq]
        exact ⟨by simp; omega, rfl⟩
      · exact hpres

theorem saveBatchBody_fresh (env : DbEnv) (henv : ∀ k, env k = false)
    (company ym : String) (notes : List DeliveryNote) (sp rid time : String)
    (db : LedgerDB) (hrid : rid ≠ "")
    (hnew : db.save_requests.contains rid = false) :
    ∃ db2, saveBatchBody env company ym notes sp rid time db
        = .ok (notes.length, db2) ∧
      db2.save_requests = db.save_requests ++ [rid] := by
  unfold saveBatchBody
  rw [if_neg (show ¬(rid ≠ "" ∧ db.save_requests.contains rid = true) from
    fun hcon => absurd hcon.2 (by rw [hnew]; exact Bool.false_ne_true))]
  rcases hfi : find_invoice_id db ym company with _ | ⟨iid, dbname⟩
  · simp only [tryWrite_noFail env henv, Except.map]
    obtain ⟨db2, k2, heq, hpres⟩ := saveNotesLoop_noFail env henv
      db.next_invoice_id sp time notes (invoiceInsert db ym company time) 1 0
    rw [heq]
    dsimp only
    rw [if_pos hrid]
    refine ⟨recordRequestRow db2 rid time, by rw [Nat.zero_add], ?_⟩
    have hc2 : db2.save_requests.contains rid = false := by
      rw [hpres]; exact hnew
    rw [show (recordRequestRow db2 rid time).save_requests
        = db2.save_requests ++ [rid] from by
      unfold recordRequestRow
      rw [if_neg (show ¬(db2.save_requests.contains rid = true) from by
        rw [hc2]; exact Bool.false_ne_true)]]
    rw [hpres]
    rfl
  · by_cases hdb : dbname ≠ company
    · dsimp only
      rw [if_pos hdb]
      simp only [tryWrite_noFail env henv, Except.map]
      obtain ⟨db2, k2, heq, hpres⟩ := saveNotesLoop_noFail env henv
        iid sp time notes (invoiceRename db iid company time) 1 0
      rw [heq]
      dsimp only
      rw [if_pos hrid]
      refine ⟨recordRequestRow db2 rid time, by rw [Nat.zero_add], ?_⟩
      have hc2 : db2.save_requests.contains rid = false := by
        rw [hpres]; exact hnew
      rw [show (recordRequestRow db2 rid time).save_requests
          = db2.save_requests ++ [rid] from by
        unfold recordRequestRow
        rw [if_neg (show ¬(db2.save_requests.contains rid = true) from by
          rw [hc2]; exact Bool.false_ne_true)]]
      rw [hpres]
      rfl
    · dsimp only
      rw [if_neg hdb]
      simp only [tryWrite_noFail env henv, Except.map]
      obtain ⟨db2, k2, heq, hpres⟩ := saveNotesLoop_noFail env henv
        iid sp time notes (invoiceTouch db iid time) 1 0
      rw [heq]
      dsimp only
      rw [if_pos hrid]
      refine ⟨recordRequestRow db2 rid time, by rw [Nat.zero_add], ?_⟩
      have hc2 : db2.save_requests.contains rid = false := by
        rw [hpres]; exact hnew
      rw [show (recordRequestRow db2 rid time).save_requests
          = db2.save_requests ++ [rid] from by
        unfold recordRequestRow
        rw [if_neg (show ¬(db2.save_requests.contains rid = true) from by
          rw [hc2]; exact Bool.false_ne_true)]]
      rw [hpres]
      rfl

theorem contains_append_singleton (l : List String) (a : String) :
    (l ++ [a]).contains a = true := by
  induction l with
  | nil => simp [List.contains]
  | cons b t ih =>
    by_cases hb : (a == b) = true
    · simp [List.contains, hb]
    · simp only [List.cons_append, List.contains_cons, hb, Bool.false_or]
      exact ih

theorem batch_skip (db : LedgerDB) (company ym : String)
    (notes : List DeliveryNote) (sp rid t : String) (env : DbEnv)
    (hrid : rid ≠ "") (hmem : db.save_requests.contains rid = true) :
    save_monthly_items_batch db company ym notes sp rid t env = (.ok 0, db) := by
  unfold save_monthly_items_batch with_connection saveBatchBody
  rw [if_pos ⟨hrid, hmem⟩]

/-- C2: idempotency of the batch save — with a fresh non-empty request
token and a non-empty payload, the first call saves all notes
(savedCount = number of notes > 0) and records the token inside the same
transaction; the second call with the same token returns savedCount 0 and
leaves the Ledger Store exactly as after the first call, and so does every
further repetition. -/
theorem C2_batch_idempotency (db : LedgerDB) (company ym : String)
    (notes : List DeliveryNote) (sp rid t1 t2 : String) (env : DbEnv)
    (hrid : rid ≠ "")
    (hnew : db.save_requests.contains rid = false)
    (henv : ∀ k, env k = false)
    (hne : notes ≠ []) :
    (save_monthly_items_batch db company ym notes sp rid t1 env).1
      = .ok notes.length ∧
    0 < notes.length ∧
    (save_monthly_items_batch
        (save_monthly_items_batch db company ym notes sp rid t1 env).2
        company ym notes sp rid t2 env).1 = .ok 0 ∧
    (save_monthly_items_batch
        (save_monthly_items_batch db company ym notes sp rid t1 env).2
        company ym notes sp rid t2 env).2
      = (save_monthly_items_batch db company ym notes sp rid t1 env).2 ∧
    ∀ m : Nat,
      (fun d => (save_monthly_items_batch d company ym notes sp rid t2 env).2)^[m]
        (save_monthly_items_batch db company ym notes sp rid t1 env).2
      = (save_monthly_items_batch db company ym notes sp rid t1 env).2 := by
  obtain ⟨db2, hbody, hsr⟩ := saveBatchBody_fresh env henv company ym notes
    (stripAllWs sp) rid t1 db hrid hnew
  have hr1 : save_monthly_items_batch db company ym notes sp rid t1 env
      = (.ok notes.length, db2) := by
    unfold save_monthly_items_batch with_connection
    rw [hbody]
  have hmem2 : db2.save_requests.contains rid = true := by
    rw [hsr]; exact contains_append_singleton _ _
  have hr2 : save_monthly_items_batch db2 company ym notes sp rid t2 env
      = (.ok 0, db2) := batch_skip db2 company ym notes sp rid t2 env hrid hmem2
  refine ⟨by rw [hr1], by cases notes with
    | nil => exact absurd rfl hne
    | cons a l => simp, ?_, ?_, ?_⟩
  · rw [hr1]
    show (save_monthly_items_batch db2 company ym notes sp rid t2 env).1 = .ok 0
    rw [hr2]
  · rw [hr1]
    show (save_monthly_items_batch db2 company ym notes sp rid t2 env).2 = db2
    rw [hr2]
  · intro m
    rw [hr1]
    show (fun d => (save_monthly_items_batch d company ym notes sp rid t2 env).2)^[m]
        db2 = db2
    induction m with
    | zero => rfl
    | succ n ihm =>
      rw [Function.iterate_succ_apply', ihm]
      show (save_monthly_items_batch db2 company ym notes sp rid t2 env).2 = db2
      rw [hr2]

theorem C2_batch_idempotency_witness :
    ("tok1" ≠ "" ∧
      (({} : LedgerDB)).save_requests.contains "tok1" = false ∧
      [({ date := "2025/03/01", company_name := "Acme", slip_number := "S-1" }
        : DeliveryNote)] ≠ []) ∧
    ((save_monthly_items_batch {} "Acme" "2025年3月"
        [{ date := "2025/03/01", company_name := "Acme", slip_number := "S-1" }]
        "" "tok1" "T1" (fun _ => false)).1 = .ok 1 ∧
     0 < (1 : Nat) ∧
     (save_monthly_items_batch
        (save_monthly_items_batch {} "Acme" "2025年3月"
          [{ date := "2025/03/01", company_name := "Acme", slip_number := "S-1" }]
          "" "tok1" "T1" (fun _ => false)).2
        "Acme" "2025年3月"
        [{ date := "2025/03/01", company_name := "Acme", slip_number := "S-1" }]
        "" "tok1" "T2" (fun _ => false)).1 = .ok 0) := by
  have h := C2_batch_idempotency {} "Acme" "2025年3月"
    [{ date := "2025/03/01", company_name := "Acme", slip_number := "S-1" }]
    "" "tok1" "T1" "T2" (fun _ => false)
    (by decide) (by decide) (fun k => rfl) (by decide)
  exact ⟨⟨by decide, by decide, by decide⟩,
    h.1, by decide, by
      have := h.2.2.1
      convert this using 2⟩

theorem N1C_id (db : LedgerDB) (iid : Nat) (note1 : DeliveryNote)
    (sp t1 : String) : (N1C db iid note1 sp t1).id = db.next_note_id := rfl

theorem DB1C_notes (db : LedgerDB) (iid : Nat) (note1 : DeliveryNote)
    (sp t1 : String) :
    (DB1C db iid note1 sp t1).notes
      = db.notes ++ [N1C db iid note1 sp t1] := rfl

theorem DB1C_items (db : LedgerDB) (iid : Nat) (note1 : DeliveryNote)
    (sp t1 : String) :
    (DB1C db iid note1 sp t1).items
      = db.items ++ note1.items.map (fun it =>
          { delivery_note_id := db.next_note_id
            product_code := it.product_code
            product_name := it.product_name
            quantity := it.quantity
            unit_price := it.unit_price
            amount := it.amount }) := rfl

theorem DB1C_invoices (db : LedgerDB) (iid : Nat) (note1 : DeliveryNote)
    (sp t1 : String) :
    (DB1C db iid note1 sp t1).invoices
      = db.invoices.map (fun r =>
          if r.id == iid then { r with updated_at := t1 } else r) := rfl

theorem invoiceTouch_notes (db : LedgerDB) (iid : Nat) (t : String) :
    (invoiceTouch db iid t).notes = db.notes := rfl

theorem invoiceTouch_items (db : LedgerDB) (iid : Nat) (t : String) :
    (invoiceTouch db iid t).items = db.items := rfl

theorem invoiceTouch_nextNote (db : LedgerDB) (iid : Nat) (t : String) :
    (invoiceTouch db iid t).next_note_id = db.next_note_id := rfl

theorem invoiceTouch_invoices (db : LedgerDB) (iid : Nat) (t : String) :
    (invoiceTouch db iid t).invoices
      = db.invoices.map (fun r =>
          if r.id == iid then { r with updated_at := t } else r) := rfl

theorem insertNoteRow_notes (db : LedgerDB) (iid : Nat) (dn : DeliveryNote)
    (sp t : String) :
    (insertNoteRow db iid dn sp t).notes
      = db.notes ++
        [{ id := db.next_note_id
           monthly_invoice_id := iid
           slip_number := dn.slip_number
           date := dn.date
           sales_person := sp
           subtotal := dn.subtotal
           tax := dn.tax
           total := dn.total
           created_at := t
           updated_at := t }] := rfl

theorem insertNoteRow_items (db : LedgerDB) (iid : Nat) (dn : DeliveryNote)
    (sp t : String) : (insertNoteRow db iid dn sp t).items = db.items := rfl

theorem insertNoteRow_invoices (db : LedgerDB) (iid : Nat) (dn : DeliveryNote)
    (sp t : String) :
    (insertNoteRow db iid dn sp t).invoices = db.invoices := rfl

theorem insertItemRows_items (db : LedgerDB) (nid : Nat)
    (items : List DeliveryItem) :
    (insertItemRows db nid items).items
      = db.items ++ items.map (fun it =>
          { delivery_note_id := nid
            product_code := it.product_code
            product_name := it.product_name
            quantity := it.quantity
            unit_price := it.unit_price
            amount := it.amount }) := rfl

theorem insertItemRows_notes (db : LedgerDB) (nid : Nat)
    (items : List DeliveryItem) :
    (insertItemRows db nid items).notes = db.notes := rfl

theorem insertItemRows_invoices (db : LedgerDB) (nid : Nat)
    (items : List DeliveryItem) :
    (insertItemRows db nid items).invoices = db.invoices := rfl

theorem insertItemRows_nextNote (db : LedgerDB) (nid : Nat)
    (items : List DeliveryItem) :
    (insertItemRows db nid items).next_note_id = db.next_note_id := rfl

theorem updateNoteRows_notes (db : LedgerDB) (nid : Nat) (dn : DeliveryNote)
    (sp t : String) :
    (updateNoteRows db nid dn sp t).notes
      = db.notes.map (fun n =>
          if n.id == nid then
            { n with
              date := dn.date
              sales_person := sp
              subtotal := dn.subtotal
              tax := dn.tax
              total := dn.total
              updated_at := t }
          else n) := rfl

theorem updateNoteRows_items (db : LedgerDB) (nid : Nat) (dn : DeliveryNote)
    (sp t : String) : (updateNoteRows db nid dn sp t).items = db.items := rfl

theorem deleteItemRows_items (db : LedgerDB) (nid : Nat) :
    (deleteItemRows db nid).items
      = db.items.filter (fun it => !(it.delivery_note_id == nid)) := rfl

theorem deleteItemRows_notes (db : LedgerDB) (nid : Nat) :
    (deleteItemRows db nid).notes = db.notes := rfl

theorem map_fix {α : Type} (f : α → α) (l : List α) (h : ∀ a ∈ l, f a = a) :
    l.map f = l := by
  conv_rhs => rw [show l = l.map id from (List.map_id l).symm]
  exact List.map_congr_left h

theorem find?_map_invariant {α : Type} (p : α → Bool) (g : α → α)
    (hpg : ∀ x, p (g x) = p x) (l : List α) :
    (l.map g).find? p = (l.find? p).map g := by
  induction l with
  | nil => rfl
  | cons a t ih =>
    simp only [List.map_cons, List.find?, hpg a]
    cases hpa : p a
    · exact ih
    · rfl

theorem find?_append_left_none {α : Type} (p : α → Bool) (l1 l2 : List α)
    (h : l1.find? p = none) : (l1 ++ l2).find? p = l2.find? p := by
  induction l1 with
  | nil => rfl
  | cons a t ih =>
    simp only [List.find?] at h
    cases hpa : p a
    · rw [hpa] at h
      simp only [List.cons_append, List.find?, hpa]
      exact ih h
    · rw [hpa] at h
      simp at h

/-- C6: upsert by natural key through save_monthly_items_batch — saving a
note whose slip number is not yet present under the (period, company)
invoice inserts exactly one Note row with its LineItems; saving again with
the same slip number and different scalars leaves exactly one Note row for
that slip, carrying the latest scalar fields, with the LineItems fully
replaced (delete-all then re-insert). -/
theorem C6_note_upsert (db : LedgerDB) (company ym : String)
    (note1 note2 : DeliveryNote) (sp t1 t2 : String) (env : DbEnv)
    (inv : InvoiceRow)
    (henv : ∀ k, env k = false)
    (hfind : db.invoices.find?
        (fun r => r.year_month == ym && r.company_name == company) = some inv)
    (hnone : ∀ n ∈ db.notes,
      (n.monthly_invoice_id == inv.id && n.slip_number == note1.slip_number)
        = false)
    (hnotefresh : ∀ n ∈ db.notes, (n.id == db.next_note_id) = false)
    (hitemfresh : ∀ it ∈ db.items,
      (it.delivery_note_id == db.next_note_id) = false)
    (hs2 : note2.slip_number = note1.slip_number) :
    (save_monthly_items_batch db company ym [note1] sp "" t1 env).1 = .ok 1 ∧
    (save_monthly_items_batch db company ym [note1] sp "" t1 env).2.notes.filter
        (fun n => n.monthly_invoice_id == inv.id
          && n.slip_number == note1.slip_number)
      = [{ id := db.next_note_id
           monthly_invoice_id := inv.id
           slip_number := note1.slip_number
           date := note1.date
           sales_person := stripAllWs sp
           subtotal := note1.subtotal
           tax := note1.tax
           total := note1.total
           created_at := t1
           updated_at := t1 }] ∧
    (save_monthly_items_batch db company ym [note1] sp "" t1 env).2.items.filter
        (fun it => it.delivery_note_id == db.next_note_id)
      = note1.items.map (fun it =>
          { delivery_note_id := db.next_note_id
            product_code := it.product_code
            product_name := it.product_name
            quantity := it.quantity
            unit_price := it.unit_price
            amount := it.amount }) ∧
    (save_monthly_items_batch
        (save_monthly_items_batch db company ym [note1] sp "" t1 env).2
        company ym [note2] sp "" t2 env).1 = .ok 1 ∧
    (save_monthly_items_batch
        (save_monthly_items_batch db company ym [note1] sp "" t1 env).2
        company ym [note2] sp "" t2 env).2.notes.filter
        (fun n => n.monthly_invoice_id == inv.id
          && n.slip_number == note1.slip_number)
      = [{ id := db.next_note_id
           monthly_invoice_id := inv.id
           slip_number := note1.slip_number
           date := note2.date
           sales_person := stripAllWs sp
           subtotal := note2.subtotal
           tax := note2.tax
           total := note2.total
           created_at := t1
           updated_at := t2 }] ∧
    (save_monthly_items_batch
        (save_monthly_items_batch db company ym [note1] sp "" t1 env).2
        company ym [note2] sp "" t2 env).2.items.filter
        (fun it => it.delivery_note_id == db.next_note_id)
      = note2.items.map (fun it =>
          { delivery_note_id := db.next_note_id
            product_code := it.product_code
            product_name := it.product_name
            quantity := it.quantity
            unit_price := it.unit_price
            amount := it.amount }) := by
  have hcomp : inv.company_name = company := by
    have hp := List.find?_some hfind
    simp only [Bool.and_eq_true, beq_iff_eq] at hp
    exact hp.2
  have hfi1 : find_invoice_id db ym company = some (inv.id, inv.company_name) := by
    unfold find_invoice_id
    rw [hfind]
  have hfnone1 : db.notes.find?
      (fun n => n.monthly_invoice_id == inv.id
        && n.slip_number == note1.slip_number) = none := by
    rw [List.find?_eq_none]
    intro x hx hcon
    rw [hnone x hx] at hcon
    exact Bool.false_ne_true hcon
  have h1 : save_monthly_items_batch db company ym [note1] sp "" t1 env
      = (.ok 1,
        insertItemRows
          (insertNoteRow (invoiceTouch db inv.id t1) inv.id note1
            (stripAllWs sp) t1)
          db.next_note_id note1.items) := by
    unfold save_monthly_items_batch with_connection saveBatchBody
    rw [if_neg (by simp)]
    rw [hfi1]
    dsimp only
    rw [if_neg (show ¬(inv.company_name ≠ company) from fun hc => hc hcomp)]
    rw [tryWrite_noFail env henv]
    simp only [Except.map]
    simp only [saveNotesLoop, invoiceTouch_notes, invoiceTouch_nextNote,
      hfnone1, tryWrite_noFail env henv, insertItemsLoop_noFail env henv]
    rw [if_neg (show ¬(("" : String) ≠ "") from fun hc => hc rfl)]
  refine ⟨by rw [h1], ?_, ?_, ?_⟩
  · rw [h1]
    dsimp only
    rw [insertItemRows_notes, insertNoteRow_notes, invoiceTouch_notes,
      invoiceTouch_nextNote, List.filter_append]
    rw [List.filter_eq_nil_iff.mpr (by
      intro x hx hcon
      rw [hnone x hx] at hcon
      exact Bool.false_ne_true hcon)]
    simp
  · rw [h1]
    dsimp only
    rw [insertItemRows_items, insertNoteRow_items, invoiceTouch_items,
      List.filter_append]
    rw [List.filter_eq_nil_iff.mpr (by
      intro x hx hcon
      rw [hitemfresh x hx] at hcon
      exact Bool.false_ne_true hcon)]
    rw [List.filter_eq_self.mpr (by
      intro x hx
      simp only [List.mem_map] at hx
      obtain ⟨it, _, hit⟩ := hx
      rw [← hit]
      simp)]
    simp
  have hpg : ∀ x : InvoiceRow,
      ((fun r => r.year_month == ym && r.company_name == company)
        (if x.id == inv.id then { x with updated_at := t1 } else x))
      = ((fun r => r.year_month == ym && r.company_name == company) x) := by
    intro x
    cases hx : (x.id == inv.id) <;> simp [hx]
  have hfi2 : find_invoice_id (DB1C db inv.id note1 sp t1) ym company
      = some (inv.id, inv.company_name) := by
    unfold find_invoice_id
    rw [DB1C_invoices, find?_map_invariant _ _ hpg, hfind]
    simp
  have hf2 : (DB1C db inv.id note1 sp t1).notes.find?
      (fun n => n.monthly_invoice_id == inv.id
        && n.slip_number == note2.slip_number)
      = some (N1C db inv.id note1 sp t1) := by
    rw [hs2, DB1C_notes, find?_append_left_none _ _ _ hfnone1]
    simp [N1C, List.find?]
  have h2 : save_monthly_items_batch (DB1C db inv.id note1 sp t1)
        company ym [note2] sp "" t2 env
      = (.ok 1,
        insertItemRows
          (deleteItemRows
            (updateNoteRows
              (invoiceTouch (DB1C db inv.id note1 sp t1) inv.id t2)
              db.next_note_id note2 (stripAllWs sp) t2)
            db.next_note_id)
          db.next_note_id note2.items) := by
    unfold save_monthly_items_batch with_connection saveBatchBody
    rw [if_neg (by simp)]
    rw [hfi2]
    dsimp only
    rw [if_neg (show ¬(inv.company_name ≠ company) from fun hc => hc hcomp)]
    rw [tryWrite_noFail env henv]
    simp only [Except.map]
    simp only [saveNotesLoop, invoiceTouch_notes, hf2, N1C_id,
      tryWrite_noFail env henv, insertItemsLoop_noFail env henv]
    rw [if_neg (show ¬(("" : String) ≠ "") from fun hc => hc rfl)]
  have hr1eq : (save_monthly_items_batch db company ym [note1] sp "" t1 env).2
      = DB1C db inv.id note1 sp t1 := by
    rw [h1]
    rfl
  have hufix : db.notes.map (fun n =>
      if n.id == db.next_note_id then
        { n with
          date := note2.date
          sales_person := stripAllWs sp
          subtotal := note2.subtotal
          tax := note2.tax
          total := note2.total
          updated_at := t2 }
      else n) = db.notes := map_fix _ _ (by
    intro n hn
    rw [hnotefresh n hn]
    simp)
  have hclean : (db.items ++ note1.items.map (fun it =>
      ({ delivery_note_id := db.next_note_id
         product_code := it.product_code
         product_name := it.product_name
         quantity := it.quantity
         unit_price := it.unit_price
         amount := it.amount } : ItemRow))).filter
      (fun it => !(it.delivery_note_id == db.next_note_id)) = db.items := by
    rw [List.filter_append]
    rw [List.filter_eq_self.mpr (by
      intro x hx
      rw [hitemfresh x hx]
      rfl)]
    rw [List.filter_eq_nil_iff.mpr (by
      intro x hx hcon
      simp only [List.mem_map] at hx
      obtain ⟨it, _, hit⟩ := hx
      rw [← hit] at hcon
      simp at hcon)]
    rw [List.append_nil]
  refine ⟨?_, ?_, ?_⟩
  · rw [hr1eq, h2]
  · rw [hr1eq, h2]
    dsimp only
    rw [insertItemRows_notes, deleteItemRows_notes, updateNoteRows_notes,
      invoiceTouch_notes, DB1C_notes, List.map_append, hufix]
    rw [List.filter_append]
    rw [List.filter_eq_nil_iff.mpr (by
      intro x hx hcon
      rw [hnone x hx] at hcon
      exact Bool.false_ne_true hcon)]
    simp [N1C]
  · rw [hr1eq, h2]
    dsimp only
    rw [insertItemRows_items, deleteItemRows_items, updateNoteRows_items,
      invoiceTouch_items, DB1C_items, hclean]
    rw [List.filter_append]
    rw [List.filter_eq_nil_iff.mpr (by
      intro x hx hcon
      rw [hitemfresh x hx] at hcon
      exact Bool.false_ne_true hcon)]
    rw [List.filter_eq_self.mpr (by
      intro x hx
      simp only [List.mem_map] at hx
      obtain ⟨it, _, hit⟩ := hx
      rw [← hit]
      simp)]
    simp

theorem C6_note_upsert_witness :
    c6note2.slip_number = c6note1.slip_number ∧
    (save_monthly_items_batch c6db "Acme" "2025年3月" [c6note1] "Sato" "" "T1"
        (fun _ => false)).1 = .ok 1 ∧
    (save_monthly_items_batch
        (save_monthly_items_batch c6db "Acme" "2025年3月" [c6note1] "Sato" ""
          "T1" (fun _ => false)).2
        "Acme" "2025年3月" [c6note2] "Sato" "" "T2"
        (fun _ => false)).2.notes.filter
        (fun n => n.monthly_invoice_id == c6inv.id
          && n.slip_number == c6note1.slip_number)
      = [{ id := c6db.next_note_id
           monthly_invoice_id := c6inv.id
           slip_number := c6note1.slip_number
           date := c6note2.date
           sales_person := stripAllWs "Sato"
           subtotal := c6note2.subtotal
           tax := c6note2.tax
           total := c6note2.total
           created_at := "T1"
           updated_at := "T2" }] := by
  have h := C6_note_upsert c6db "Acme" "2025年3月" c6note1 c6note2 "Sato"
    "T1" "T2" (fun _ => false) c6inv (fun k => rfl) (by decide) (by decide)
    (by decide) (by decide) rfl
  exact ⟨rfl, h.1, h.2.2.2.2.1⟩

/-- C3: duplicate-slip pre-commit guard — with force_overwrite false and a
request slip already stored under the resolved (company, period) invoice,
save_billing returns the duplicate-conflict response carrying the
conflicting stored notes and leaves both stores exactly as they were; the
same request with force_overwrite true bypasses the guard and proceeds as
the normal batch upsert plus best-effort mirror writes. -/
theorem C3_duplicate_guard (st : RouteState) (req : SaveBillingRequest)
    (time : String) (now_year : Int) (env : RouteEnv) (ym : String)
    (hrid : req.request_id = "")
    (hforce : req.force_overwrite = false)
    (hym : ymConvert req.year_month = some ym)
    (hne : find_existing_slip_numbers st.db (resolvedCompany st req now_year)
      ym (requestSlips (req.delivery_notes.map
        (buildNote (resolvedCompany st req now_year)))) ≠ []) :
    save_billing st req time now_year env
      = (.resp { success := false
                 message := "以下の伝票番号は既にDBに保存されています"
                 saved_count := 0
                 duplicate_conflict := true
                 existing_notes := find_existing_slip_numbers st.db
                   (resolvedCompany st req now_year) ym
                   (requestSlips (req.delivery_notes.map
                     (buildNote (resolvedCompany st req now_year)))) },
         st) ∧
    (∀ n db1,
      save_monthly_items_batch st.db (resolvedCompany st req now_year) ym
          (req.delivery_notes.map (buildNote (resolvedCompany st req now_year)))
          req.sales_person req.request_id time env.dbFail = (.ok n, db1) →
      save_billing st { req with force_overwrite := true } time now_year env
        = (.resp { success := true
                   message := mkSaveMessage (resolvedCompany st req now_year)
                     req.year_month n
                     (sheetLoop env (resolvedCompany st req now_year) ym
                       (pbOf req)
                       (req.delivery_notes.map
                         (buildNote (resolvedCompany st req now_year)))
                       st.book 0).2
                   saved_count := n },
           { db := db1
             book := (sheetLoop env (resolvedCompany st req now_year) ym
               (pbOf req)
               (req.delivery_notes.map
                 (buildNote (resolvedCompany st req now_year)))
               st.book 0).1 })) := by
  constructor
  · unfold save_billing
    rw [if_neg (by simp [hrid])]
    rw [hym]
    dsimp only
    rw [hforce]
    simp only [Bool.false_eq_true, if_false]
    rw [if_pos (by
      constructor
      · simp [hforce]
      · exact hne)]
  · intro n db1 hbatch
    unfold save_billing
    rw [if_neg (by simp [hrid])]
    have hym2 : ymConvert ({ req with force_overwrite := true }
        : SaveBillingRequest).year_month = some ym := hym
    rw [hym2]
    dsimp only
    rw [if_neg (by simp)]
    have hco : resolvedCompany st { req with force_overwrite := true } now_year
        = resolvedCompany st req now_year := rfl
    rw [hco]
    rw [show save_monthly_items_batch st.db
        (resolvedCompany st req now_year) ym
        (req.delivery_notes.map (buildNote (resolvedCompany st req now_year)))
        req.sales_person req.request_id time env.dbFail = (.ok n, db1)
      from hbatch]
    rfl

theorem C3_duplicate_guard_witness :
    (c3req.request_id = "" ∧
     c3req.force_overwrite = false ∧
     ymConvert c3req.year_month = some "2025年3月" ∧
     find_existing_slip_numbers c3st.db (resolvedCompany c3st c3req 2025)
       "2025年3月" (requestSlips (c3req.delivery_notes.map
         (buildNote (resolvedCompany c3st c3req 2025)))) ≠ []) ∧
    save_billing c3st c3req "T1" 2025
        { dbFail := fun _ => false, sheetFail := fun _ => false }
      = (.resp { success := false
                 message := "以下の伝票番号は既にDBに保存されています"
                 saved_count := 0
                 duplicate_conflict := true
                 existing_notes := find_existing_slip_numbers c3st.db
                   (resolvedCompany c3st c3req 2025) "2025年3月"
                   (requestSlips (c3req.delivery_notes.map
                     (buildNote (resolvedCompany c3st c3req 2025)))) },
         c3st) := by
  have h := C3_duplicate_guard c3st c3req "T1" 2025
    { dbFail := fun _ => false, sheetFail := fun _ => false } "2025年3月"
    rfl rfl (by decide) (by decide)
  exact ⟨⟨rfl, rfl, by decide, by decide⟩, h.1⟩

theorem sheetLoop_allFail (env : RouteEnv) (company ym : String)
    (pb : PreviousBilling) (hfail : ∀ k, env.sheetFail k = true) :
    ∀ (notes : List DeliveryNote) (book : SheetBook) (k : Nat),
    sheetLoop env company ym pb notes book k
      = (book, notes.map (fun dn => dn.slip_number ++ ": " ++ "network error"))
    := by
  intro notes
  induction notes with
  | nil => intro book k; rfl
  | cons dn rest ih =>
    intro book k
    unfold sheetLoop
    rw [if_pos (hfail k)]
    dsimp only
    rw [ih book (k + 1)]
    rfl

/-- C7: the mirror sync of save_billing is best-effort — once the batch
transaction commits, the response is success with the committed count and
the db component is the committed ledger regardless of the sheet-failure
oracle; when every per-note sheet write raises, each failure is collected
as a "slip: network error" warning, the remaining notes are still
attempted, and the sheet book is left unchanged. -/
theorem C7_mirror_best_effort (st : RouteState) (req : SaveBillingRequest)
    (time : String) (now_year : Int) (env : RouteEnv) (ym : String)
    (n : Nat) (db1 : LedgerDB)
    (hrid : req.request_id = "")
    (hforce : req.force_overwrite = true)
    (hym : ymConvert req.year_month = some ym)
    (hbatch : save_monthly_items_batch st.db (resolvedCompany st req now_year)
        ym (req.delivery_notes.map (buildNote (resolvedCompany st req now_year)))
        req.sales_person req.request_id time env.dbFail = (.ok n, db1)) :
    save_billing st req time now_year env
      = (.resp { success := true
                 message := mkSaveMessage (resolvedCompany st req now_year)
                   req.year_month n
                   (sheetLoop env (resolvedCompany st req now_year) ym
                     (pbOf req)
                     (req.delivery_notes.map
                       (buildNote (resolvedCompany st req now_year)))
                     st.book 0).2
                 saved_count := n },
         { db := db1
           book := (sheetLoop env (resolvedCompany st req now_year) ym
             (pbOf req)
             (req.delivery_notes.map
               (buildNote (resolvedCompany st req now_year)))
             st.book 0).1 }) ∧
    ((∀ k, env.sheetFail k = true) →
      sheetLoop env (resolvedCompany st req now_year) ym (pbOf req)
        (req.delivery_notes.map (buildNote (resolvedCompany st req now_year)))
        st.book 0
      = (st.book,
        (req.delivery_notes.map
          (buildNote (resolvedCompany st req now_year))).map
          (fun dn => dn.slip_number ++ ": " ++ "network error"))) := by
  constructor
  · unfold save_billing
    rw [if_neg (by simp [hrid])]
    rw [hym]
    dsimp only
    rw [hforce]
    rw [if_pos rfl]
    rw [if_neg (by simp)]
    rw [hbatch]
    rfl
  · intro hf
    exact sheetLoop_allFail env (resolvedCompany st req now_year) ym
      (pbOf req) hf
      (req.delivery_notes.map (buildNote (resolvedCompany st req now_year)))
      st.book 0

theorem C7_mirror_best_effort_witness :
    (c7req.request_id = "" ∧
     c7req.force_overwrite = true ∧
     ymConvert c7req.year_month = some "2025年3月" ∧
     save_monthly_items_batch c7st.db (resolvedCompany c7st c7req 2025)
         "2025年3月" (c7req.delivery_notes.map
           (buildNote (resolvedCompany c7st c7req 2025)))
         c7req.sales_person c7req.request_id "T1" c7env.dbFail
       = (.ok 1, (save_monthly_items_batch c7st.db
           (resolvedCompany c7st c7req 2025) "2025年3月"
           (c7req.delivery_notes.map
             (buildNote (resolvedCompany c7st c7req 2025)))
           c7req.sales_person c7req.request_id "T1" c7env.dbFail).2)) ∧
    save_billing c7st c7req "T1" 2025 c7env
      = (.resp { success := true
                 message := mkSaveMessage (resolvedCompany c7st c7req 2025)
                   c7req.year_month 1
                   (sheetLoop c7env (resolvedCompany c7st c7req 2025)
                     "2025年3月" (pbOf c7req)
                     (c7req.delivery_notes.map
                       (buildNote (resolvedCompany c7st c7req 2025)))
                     c7st.book 0).2
                 saved_count := 1 },
         { db := (save_monthly_items_batch c7st.db
             (resolvedCompany c7st c7req 2025) "2025年3月"
             (c7req.delivery_notes.map
               (buildNote (resolvedCompany c7st c7req 2025)))
             c7req.sales_person c7req.request_id "T1" c7env.dbFail).2
           book := (sheetLoop c7env (resolvedCompany c7st c7req 2025)
             "2025年3月" (pbOf c7req)
             (c7req.delivery_notes.map
               (buildNote (resolvedCompany c7st c7req 2025)))
             c7st.book 0).1 }) ∧
    sheetLoop c7env (resolvedCompany c7st c7req 2025) "2025年3月" (pbOf c7req)
        (c7req.delivery_notes.map (buildNote (resolvedCompany c7st c7req 2025)))
        c7st.book 0
      = (c7st.book,
        (c7req.delivery_notes.map
          (buildNote (resolvedCompany c7st c7req 2025))).map
          (fun dn => dn.slip_number ++ ": " ++ "network error")) := by
  have h := C7_mirror_best_effort c7st c7req "T1" 2025 c7env "2025年3月" 1
    ((save_monthly_items_batch c7st.db (resolvedCompany c7st c7req 2025)
      "2025年3月" (c7req.delivery_notes.map
        (buildNote (resolvedCompany c7st c7req 2025)))
      c7req.sales_person c7req.request_id "T1" c7env.dbFail).2)
    rfl rfl (by decide) (by decide)
  exact ⟨⟨rfl, rfl, by decide, by decide⟩, h.1, h.2 (fun k => rfl)⟩

theorem mcn_nil (s : String) : match_company_name s [] = none := by
  unfold match_company_name
  by_cases h : (normalize_company_name s == "") = true
  · rw [if_pos h]
  · rw [if_neg h]
    rfl

theorem filterMap_congr_own {α β : Type} (f g : α → Option β) (l : List α)
    (h : ∀ a ∈ l, f a = g a) : l.filterMap f = l.filterMap g := by
  induction l with
  | nil => rfl
  | cons a t ih =>
    rw [List.filterMap_cons, List.filterMap_cons, h a (by simp),
      ih (fun x hx => h x (by simp [hx]))]

theorem groupInsert_get (m : List (String × List TotalsRow)) (e : TotalsRow)
    (ym : String) :
    groupGet (groupInsert m e) ym
      = groupGet m ym ++ (if e.year_month == ym then [e] else []) := by
  induction m with
  | nil =>
    by_cases h : e.year_month = ym
    · simp [groupInsert, groupGet, List.lookup, h]
    · have hb : (ym == e.year_month) = false :=
        beq_eq_false_iff_ne.mpr (fun hc => h hc.symm)
      have hb2 : (e.year_month == ym) = false := beq_eq_false_iff_ne.mpr h
      simp [groupInsert, groupGet, List.lookup, hb, hb2]
  | cons p rest ih =>
    obtain ⟨k, es⟩ := p
    unfold groupInsert
    by_cases hk : (k == e.year_month) = true
    · rw [if_pos hk]
      have hk2 : k = e.year_month := by simpa using hk
      by_cases hym : ym = k
      · subst hym
        simp [groupGet, List.lookup, ← hk2]
      · have hb : (ym == k) = false := beq_eq_false_iff_ne.mpr hym
        have hb2 : (e.year_month == ym) = false :=
          beq_eq_false_iff_ne.mpr (fun hc => hym (by rw [hk2, hc]))
        simp [groupGet, List.lookup, hb, hb2]
    · rw [if_neg hk]
      by_cases hym : ym = k
      · subst hym
        have hne : ¬(e.year_month == ym) = true := by
          simp
          intro hc
          exact hk (by simp [hc])
        simp [groupGet, List.lookup, hne]
      · have hlk : ∀ rest2 : List (String × List TotalsRow),
            groupGet ((k, es) :: rest2) ym = groupGet rest2 ym := by
          intro rest2
          simp [groupGet, List.lookup, show ¬(ym == k) = true from by
            simp [hym]]
        rw [hlk, hlk, ih]

theorem foldl_groupInsert_get (es : List TotalsRow)
    (m : List (String × List TotalsRow)) (ym : String) :
    groupGet (es.foldl groupInsert m) ym
      = groupGet m ym ++ es.filter (fun e => e.year_month == ym) := by
  induction es generalizing m with
  | nil => simp
  | cons e rest ih =>
    rw [List.foldl_cons, ih, groupInsert_get]
    by_cases h : (e.year_month == ym) = true
    · simp [h, List.filter_cons]
    · simp [h, List.filter_cons]

theorem groupByYm_get (es : List TotalsRow) (ym : String) :
    groupGet (groupByYm es) ym = es.filter (fun e => e.year_month == ym) := by
  unfold groupByYm
  rw [foldl_groupInsert_get]
  rfl

/-- C8: check_discrepancy emits exactly one record per Ledger aggregate row
whose subtotal or tax differs (exact integer inequality, no tolerance)
from the mirror amounts of the Identity-Matcher-resolved mirror company of
that period, taken as zero when no match exists; equal rows produce
nothing, and nothing is written to either store (the reconciler is a pure
query of the two states). -/
theorem C8_reconciler (st : RouteState) (now_year : Int) :
    check_discrepancy st now_year = findDiscrepanciesClaim st now_year := by
  unfold check_discrepancy findDiscrepanciesClaim
  by_cases h : ((get_all_monthly_totals st.db).isEmpty) = true
  · rw [if_pos h]
    have hnil : get_all_monthly_totals st.db = [] := by
      simpa using h
    rw [hnil]
    rfl
  · rw [if_neg h]
    apply filterMap_congr_own
    intro r hr
    dsimp only
    rw [groupByYm_get]
    simp only [claimMirrorAmounts]
    cases hent : (collectSheetAmounts st.book (get_all_monthly_totals st.db)
        now_year).filter (fun e => e.year_month == r.year_month) with
    | nil => simp [mcn_nil]
    | cons a l =>
      cases hm : match_company_name r.company_name
          ((a :: l).map (fun e => e.company_name)) with
      | none => simp [hm]
      | some matched =>
        cases hf : (a :: l).find? (fun e => e.company_name == matched) with
        | none => simp [hm, hf]
        | some e => simp [hm, hf]

end Advan

